import Mathlib

/-!
Verification development for the Local Guide recommendation system.

The Python sources are shallowly embedded: dictionaries become structures with
optional fields (`none` models a missing key), floats become rationals,
`time.time()` values become rational timestamps passed explicitly, and every
outbound network call is modelled by an environment record carrying the
call's outcome as an `Except` value, so that theorems quantify over all
possible provider behaviours (success with any payload, or any exception).
-/

/- ## Python string primitives (ASCII semantics, as used by the sources) -/

/-- ASCII lower-casing of one character, as Python `str.lower` acts on the
ASCII texts in this code base. -/
def lowerChar (c : Char) : Char :=
  if 65 ≤ c.toNat ∧ c.toNat ≤ 90 then Char.ofNat (c.toNat + 32) else c

/-- ASCII upper-casing of one character. -/
def upperChar (c : Char) : Char :=
  if 97 ≤ c.toNat ∧ c.toNat ≤ 122 then Char.ofNat (c.toNat - 32) else c

/-- Python `s.lower()` on ASCII text. -/
def lowerStr (s : String) : String := String.mk (s.data.map lowerChar)

/-- ASCII letter test (Python `str.isalpha` on the ASCII texts used here). -/
def isAlphaChar (c : Char) : Bool :=
  (65 ≤ c.toNat ∧ c.toNat ≤ 90) ∨ (97 ≤ c.toNat ∧ c.toNat ≤ 122)

/-- Helper for `titleStr`: upper-case a letter that follows a non-letter,
lower-case any other letter (Python `str.title`). -/
def titleAux : Bool → List Char → List Char
  | _, [] => []
  | prevAlpha, c :: cs =>
      (if prevAlpha then lowerChar c else upperChar c) :: titleAux (isAlphaChar c) cs

/-- Python `s.title()` on ASCII text. -/
def titleStr (s : String) : String := String.mk (titleAux false s.data)

/-- Does the first character list start with the second? -/
def startsWithL : List Char → List Char → Bool
  | _, [] => true
  | [], _ :: _ => false
  | h :: hs, n :: ns => h = n && startsWithL hs ns

/-- Does the second character list occur inside the first? -/
def containsL (needle : List Char) : List Char → Bool
  | [] => startsWithL [] needle
  | c :: hs => startsWithL (c :: hs) needle || containsL needle hs

/-- Python substring test `needle in hay`. -/
def strContains (hay needle : String) : Bool :=
  containsL needle.data hay.data

/-- Python `s.split()` (whitespace split, empty pieces dropped). -/
def splitWs (s : String) : List String :=
  ((s.data.splitOnP (fun c => c = ' ' ∨ c = '\t' ∨ c = '\n')).map String.mk).filter
    (fun w => ¬ w.isEmpty)

/-- Python `' '.join(xs)`. -/
def joinSpace (xs : List String) : String := String.intercalate " " xs

/-- `rec.get(key, '')` / `str(x) if x is not None else ''` on an optional
string field. -/
def pyStr (o : Option String) : String := o.getD ""

/-- Stable descending sort by a rational key (Python `list.sort(key=...,
reverse=True)`). -/
def pySortDescBy (key : α → ℚ) (l : List α) : List α :=
  l.insertionSort (fun a b => key b ≤ key a)

/-- Lexicographic order on rational pairs, as Python compares 2-tuples. -/
def pairLe (p q : ℚ × ℚ) : Prop := p.1 < q.1 ∨ (p.1 = q.1 ∧ p.2 ≤ q.2)

instance : DecidableRel pairLe := fun p q => by unfold pairLe; infer_instance

/-- Stable descending sort by a rational pair key. -/
def pySortDescByPair (key : α → ℚ × ℚ) (l : List α) : List α :=
  l.insertionSort (fun a b => pairLe (key b) (key a))

/-- Lexicographic order on rational triples, as Python compares 3-tuples. -/
def tripleLe (p q : ℚ × ℚ × ℚ) : Prop :=
  p.1 < q.1 ∨ (p.1 = q.1 ∧ pairLe p.2 q.2)

instance : DecidableRel tripleLe := fun p q => by unfold tripleLe; infer_instance

/-- Stable descending sort by a rational triple key. -/
def pySortDescByTriple (key : α → ℚ × ℚ × ℚ) (l : List α) : List α :=
  l.insertionSort (fun a b => tripleLe (key b) (key a))

/- ## src/utils/base_service.py — circuit breaker -/

/-- `CircuitState` enum of base_service.py. -/
inductive CircuitState where
  | closed
  | open'
  | halfOpen
deriving DecidableEq, Repr

/-- `CircuitState.value` strings. -/
def CircuitState.value : CircuitState → String
  | .closed => "closed"
  | .open' => "open"
  | .halfOpen => "half_open"

/-- The mutable state of a `CircuitBreaker` instance.  `last_failure_time`
is `none` while it is still Python `None`. -/
structure CircuitBreaker where
  failure_threshold : ℕ
  recovery_timeout : ℚ
  failure_count : ℕ
  last_failure_time : Option ℚ
  state : CircuitState
deriving DecidableEq, Repr

namespace CircuitBreaker

/-- `CircuitBreaker.__init__` (counter 0, no failure yet, CLOSED). -/
def new (failure_threshold : ℕ) (recovery_timeout : ℚ) : CircuitBreaker :=
  { failure_threshold := failure_threshold
    recovery_timeout := recovery_timeout
    failure_count := 0
    last_failure_time := none
    state := .closed }

/-- `_should_attempt_reset`: `self.last_failure_time and time.time() -
self.last_failure_time >= self.recovery_timeout`.  A stored time of `0.0`
is falsy in Python, hence the extra disequality. -/
def should_attempt_reset (cb : CircuitBreaker) (now : ℚ) : Bool :=
  match cb.last_failure_time with
  | none => false
  | some t => decide (t ≠ 0) && decide (now - t ≥ cb.recovery_timeout)

/-- `_on_success`: reset the counter, go CLOSED. -/
def on_success (cb : CircuitBreaker) : CircuitBreaker :=
  { cb with failure_count := 0, state := .closed }

/-- `_on_failure` at wall-clock `now`: count up, stamp the failure, open the
circuit once the threshold is reached. -/
def on_failure (cb : CircuitBreaker) (now : ℚ) : CircuitBreaker :=
  let cb' := { cb with failure_count := cb.failure_count + 1, last_failure_time := some now }
  if cb'.failure_count ≥ cb'.failure_threshold then { cb' with state := .open' } else cb'

/-- Outcome of one `CircuitBreaker.call`: the new breaker state, the result
(`.error` models a raised exception), and whether the wrapped function was
actually invoked. -/
structure CallResult (α : Type) where
  breaker : CircuitBreaker
  result : Except String α
  invoked : Bool
deriving Repr

/-- `CircuitBreaker.call` at wall-clock `now`; `outcome` is what the wrapped
function would do if invoked. -/
def call (cb : CircuitBreaker) (now : ℚ) (outcome : Except String α) : CallResult α :=
  if cb.state = .open' ∧ ¬ (cb.should_attempt_reset now) then
    { breaker := cb
      result := .error "Circuit breaker is OPEN - service unavailable"
      invoked := false }
  else
    let cb' := if cb.state = .open' then { cb with state := .halfOpen } else cb
    match outcome with
    | .ok a => { breaker := cb'.on_success, result := .ok a, invoked := true }
    | .error e => { breaker := cb'.on_failure now, result := .error e, invoked := true }

/-- One failing call, keeping only the breaker state. -/
def failStep (cb : CircuitBreaker) (now : ℚ) (msg : String) : CircuitBreaker :=
  (cb.call now (Except.error msg : Except String Unit)).breaker

end CircuitBreaker

/- ## The common recommendation-record shape (a Python dict) -/

/-- The `neighborhood_insights` sub-dict attached to a record by
`LocalGuideSystem._add_neighborhood_insights`. -/
structure InsightAttachment where
  best_for : List String
  cultural_significance : String
  authentic_experiences : List String
  avoid_tourist_traps : List String
deriving DecidableEq, Repr

/-- A recommendation record.  Each field models one dict key that some code
path reads or writes; `none` models the key being absent. -/
structure Rec where
  id : Option String := none
  objectID : Option String := none
  Name : Option String := none
  name : Option String := none
  Type' : Option String := none
  type' : Option String := none
  wTeaser : Option String := none
  description : Option String := none
  cultural_context : Option String := none
  cultural_tags : Option (List String) := none
  category : Option String := none
  source : Option String := none
  recommendation_type : Option String := none
  neighborhood : Option String := none
  location : Option (ℚ × ℚ) := none
  rating : Option ℚ := none
  price_level : Option ℤ := none
  opening_hours : Option (List String) := none
  contact : Option (List (String × String)) := none
  amenities : Option (List String) := none
  search_score : Option ℚ := none
  cultural_relevance : Option ℚ := none
  authenticity_score : Option ℚ := none
  personalization_score : Option ℚ := none
  fallback_reason : Option String := none
  neighborhood_insights : Option InsightAttachment := none
deriving DecidableEq, Repr

/-- The record with every key absent. -/
def Rec.empty : Rec := {}

/- ## src/utils/tastedive_api.py — CulturalDiscoveryEngine -/

namespace CulturalDiscoveryEngine

/-- `self.korean_cultural_keywords`. -/
def korean_cultural_keywords : List String :=
  ["korean", "korea", "k-pop", "kpop", "kdrama", "seoul", "busan",
   "korean food", "korean culture", "korean music", "korean film",
   "hallyu", "korean wave", "korean traditional", "korean modern",
   "korean entertainment", "korean art", "korean history"]

/-- Per-keyword weight of the first scoring loop in
`_calculate_cultural_relevance_score`. -/
def keywordWeight (k : String) : ℚ :=
  if k = "korean" ∨ k = "korea" then 0.4
  else if k = "k-pop" ∨ k = "kpop" ∨ k = "kdrama" then 0.3
  else if k = "seoul" ∨ k = "busan" then 0.2
  else 0.1

/-- `cultural_indicators` list of `_calculate_cultural_relevance_score`. -/
def cultural_indicators : List String :=
  ["traditional", "modern", "contemporary", "authentic", "cultural",
   "heritage", "history", "art", "music", "film", "literature"]

/-- `korean_elements` list of `_calculate_cultural_relevance_score`. -/
def korean_elements : List String :=
  ["hanbok", "kimchi", "bulgogi", "bibimbap", "taekwondo", "hallyu",
   "chaebol", "soju", "makgeolli", "temple", "palace", "hanok"]

/-- `asian_indicators` list of `_calculate_cultural_relevance_score`. -/
def asian_indicators : List String :=
  ["asian", "asia", "east asian", "oriental", "confucian", "buddhist"]

/-- `_calculate_cultural_relevance_score(name, description, item_type)`.
The `item_type` argument is accepted but, as in the source, never used. -/
def calculate_cultural_relevance_score (name description item_type : String) : ℚ :=
  let text_content := lowerStr (name ++ " " ++ description)
  let score :=
    (korean_cultural_keywords.map
      (fun k => if strContains text_content k then keywordWeight k else 0)).sum
    + (cultural_indicators.map
      (fun k => if strContains text_content k then (0.05 : ℚ) else 0)).sum
    + (korean_elements.map
      (fun k => if strContains text_content k then (0.15 : ℚ) else 0)).sum
    + (asian_indicators.map
      (fun k => if strContains text_content k then (0.1 : ℚ) else 0)).sum
  let score :=
    if score = 0 ∧
        (["culture", "traditional", "modern", "art", "music", "film"].any
          (fun w => strContains text_content w)) then
      (0.15 : ℚ)
    else score
  min score 1

/-- `authentic_elements` list of `_calculate_authenticity_score`. -/
def authentic_elements : List String :=
  ["traditional", "heritage", "historical", "authentic", "original",
   "classical", "folk", "indigenous", "ancestral", "ceremonial"]

/-- `modern_elements` list of `_calculate_authenticity_score`. -/
def modern_elements : List String :=
  ["contemporary", "modern", "current", "trendy", "popular", "mainstream"]

/-- `_calculate_authenticity_score(name, description)`: base 0.5, +0.1 per
authentic element, +0.05 per modern element, capped at 1.0. -/
def calculate_authenticity_score (name description : String) : ℚ :=
  let text_content := lowerStr (name ++ " " ++ description)
  let score := (0.5 : ℚ)
    + (authentic_elements.map
      (fun k => if strContains text_content k then (0.1 : ℚ) else 0)).sum
    + (modern_elements.map
      (fun k => if strContains text_content k then (0.05 : ℚ) else 0)).sum
  min score 1

/-- Field-name normalisation at the end of the loop body of
`_filter_and_score_korean_relevance`. -/
def normalize_fields (item : Rec) : Rec :=
  let item := match item.Name, item.name with
    | none, some n => { item with Name := some n }
    | _, _ => item
  let item := match item.wTeaser, item.description with
    | none, some d => { item with wTeaser := some d }
    | _, _ => item
  match item.Type', item.type' with
    | none, some t => { item with Type' := some t }
    | _, _ => item

/-- The loop body of `_filter_and_score_korean_relevance` for one raw item:
score it, boost Korean queries, keep it only above the 0.1 threshold. -/
def score_item (query_is_korean : Bool) (item : Rec) : Option Rec :=
  let name := lowerStr (pyStr (item.Name <|> item.name))
  let description := lowerStr (pyStr (item.wTeaser <|> item.description))
  let item_type := lowerStr (pyStr (item.Type' <|> item.type'))
  let relevance_score := calculate_cultural_relevance_score name description item_type
  let relevance_score :=
    if query_is_korean = true ∧ relevance_score < 0.2 then (0.2 : ℚ) else relevance_score
  if relevance_score > 0.1 then
    some (normalize_fields
      { item with cultural_relevance := some relevance_score
                  authenticity_score := some (calculate_authenticity_score name description) })
  else none

/-- `_filter_and_score_korean_relevance`. -/
def filter_and_score_korean_relevance (items : List Rec) (query_is_korean : Bool) : List Rec :=
  items.filterMap (score_item query_is_korean)

/-- `self.local_cultural_knowledge['movies']`. -/
def local_knowledge_movies : List Rec :=
  [{ Name := some "Parasite", Type' := some "movie",
     wTeaser := some "Oscar-winning Korean thriller exploring class dynamics",
     cultural_context := some "Reflects modern Korean social issues and architecture",
     cultural_relevance := some 0.95 },
   { Name := some "Oldboy", Type' := some "movie",
     wTeaser := some "Iconic Korean revenge thriller",
     cultural_context := some "Showcases Korean cinema\x27s psychological depth",
     cultural_relevance := some 0.90 },
   { Name := some "Train to Busan", Type' := some "movie",
     wTeaser := some "Korean zombie film with emotional depth",
     cultural_context := some "Demonstrates Korean storytelling and family values",
     cultural_relevance := some 0.85 },
   { Name := some "Burning", Type' := some "movie",
     wTeaser := some "Psychological drama based on Haruki Murakami",
     cultural_context := some "Explores modern Korean youth and social tensions",
     cultural_relevance := some 0.88 }]

/-- `self.local_cultural_knowledge['music']`. -/
def local_knowledge_music : List Rec :=
  [{ Name := some "BTS", Type' := some "music",
     wTeaser := some "Global K-pop phenomenon",
     cultural_context := some "Represents Korean Wave and modern Korean identity",
     cultural_relevance := some 0.98 },
   { Name := some "BLACKPINK", Type' := some "music",
     wTeaser := some "International K-pop girl group",
     cultural_context := some "Modern Korean pop culture and fashion influence",
     cultural_relevance := some 0.95 },
   { Name := some "IU", Type' := some "music",
     wTeaser := some "Beloved Korean singer-songwriter",
     cultural_context := some "Represents Korean indie and mainstream music fusion",
     cultural_relevance := some 0.92 },
   { Name := some "Pansori", Type' := some "music",
     wTeaser := some "Traditional Korean musical storytelling",
     cultural_context := some "UNESCO-recognized Korean traditional performing art",
     cultural_relevance := some 0.99 }]

/-- `self.local_cultural_knowledge['shows']`. -/
def local_knowledge_shows : List Rec :=
  [{ Name := some "Squid Game", Type' := some "show",
     wTeaser := some "Global phenomenon Korean survival drama",
     cultural_context := some "Critiques Korean economic inequality and childhood games",
     cultural_relevance := some 0.96 },
   { Name := some "Kingdom", Type' := some "show",
     wTeaser := some "Korean zombie historical drama",
     cultural_context := some "Blends Korean history with modern storytelling",
     cultural_relevance := some 0.90 },
   { Name := some "Crash Landing on You", Type' := some "show",
     wTeaser := some "Korean romantic drama",
     cultural_context := some "Showcases Korean-North Korean cultural differences",
     cultural_relevance := some 0.87 },
   { Name := some "Reply 1988", Type' := some "show",
     wTeaser := some "Nostalgic Korean family drama",
     cultural_context := some "Depicts 1980s Korean family life and neighborhood culture",
     cultural_relevance := some 0.94 }]

/-- `self.local_cultural_knowledge['books']`. -/
def local_knowledge_books : List Rec :=
  [{ Name := some "Please Look After Mom", Type' := some "book",
     wTeaser := some "Korean literary fiction about family",
     cultural_context := some "Explores Korean family dynamics and filial piety",
     cultural_relevance := some 0.93 },
   { Name := some "The Vegetarian", Type' := some "book",
     wTeaser := some "Korean psychological fiction",
     cultural_context := some "Examines Korean patriarchal society and women\x27s autonomy",
     cultural_relevance := some 0.91 },
   { Name := some "Pachinko", Type' := some "book",
     wTeaser := some "Multi-generational Korean family saga",
     cultural_context := some "Korean diaspora experience and identity",
     cultural_relevance := some 0.89 }]

/-- `self.local_cultural_knowledge['experiences']`. -/
def local_knowledge_experiences : List Rec :=
  [{ Name := some "Korean Temple Stay", Type' := some "experience",
     wTeaser := some "Immersive Buddhist cultural experience",
     cultural_context := some "Traditional Korean Buddhist practices and meditation",
     cultural_relevance := some 0.97 },
   { Name := some "Korean Cooking Class", Type' := some "experience",
     wTeaser := some "Learn authentic Korean cuisine",
     cultural_context := some "Korean food culture and communal dining traditions",
     cultural_relevance := some 0.95 },
   { Name := some "Hanbok Experience", Type' := some "experience",
     wTeaser := some "Traditional Korean clothing experience",
     cultural_context := some "Korean traditional fashion and cultural ceremonies",
     cultural_relevance := some 0.93 },
   { Name := some "Korean Tea Ceremony", Type' := some "experience",
     wTeaser := some "Traditional Korean tea culture",
     cultural_context := some "Korean mindfulness and hospitality traditions",
     cultural_relevance := some 0.90 }]

/-- `self.local_cultural_knowledge`, in dict order. -/
def local_cultural_knowledge : List (String × List Rec) :=
  [("movies", local_knowledge_movies), ("music", local_knowledge_music),
   ("shows", local_knowledge_shows), ("books", local_knowledge_books),
   ("experiences", local_knowledge_experiences)]

/-- The `source` / `fallback_reason` tagging applied to each fallback item in
`_get_fallback_korean_experiences`. -/
def tag_local_knowledge (item : Rec) : Rec :=
  { item with source := some "local_knowledge", fallback_reason := some "API unavailable" }

/-- `_get_fallback_korean_experiences(query, content_type, limit)`.  Note the
query is not consulted at all when selecting fallback items. -/
def get_fallback_korean_experiences (query content_type : String) (limit : ℕ) : List Rec :=
  let fallback_items :=
    match local_cultural_knowledge.lookup content_type with
    | some items => items.take limit
    | none =>
        if content_type = "all" then
          ((local_cultural_knowledge.map
            (fun (p : String × List Rec) => p.2.take 2)).flatten).take limit
        else
          local_knowledge_experiences.take limit
  fallback_items.map tag_local_knowledge

end CulturalDiscoveryEngine

/- ## src/utils/algolia_api.py — SearchService -/

/-- Python `s.strip()` on ASCII whitespace. -/
def stripStr (s : String) : String :=
  let ws := fun c : Char => c = ' ' ∨ c = '\t' ∨ c = '\n'
  String.mk (((s.data.dropWhile ws).reverse.dropWhile ws).reverse)

/-- Python `s.endswith(suffix)`. -/
def endsWithStr (s suf : String) : Bool :=
  startsWithL s.data.reverse suf.data.reverse

namespace SearchService

/-- `type_mapping` of `_normalize_place_type`. -/
def type_mapping : List (String × String) :=
  [("restaurants", "restaurant"), ("food", "restaurant"), ("dining", "restaurant"),
   ("attractions", "attraction"), ("sights", "attraction"), ("sightseeing", "attraction"),
   ("hotels", "hotel"), ("accommodation", "hotel"), ("lodging", "hotel"),
   ("transport", "transport"), ("transportation", "transport"), ("transit", "transport")]

/-- `_normalize_place_type`. -/
def normalize_place_type (place_type : String) : String :=
  let normalized := stripStr (lowerStr place_type)
  (type_mapping.lookup normalized).getD normalized

/-- The Korea bounding-box check of `search_places`:
`33.0 <= lat <= 39.0 and 124.0 <= lng <= 132.0`. -/
def in_korea_bounds (lat lng : ℚ) : Bool :=
  decide (33 ≤ lat ∧ lat ≤ 39 ∧ 124 ≤ lng ∧ lng ≤ 132)

/-- The `search_params` dict that `search_places` builds before issuing the
request.  `warnedOutOfBounds` records whether the out-of-Korea warning was
logged for the given location. -/
structure SearchParams where
  query : String
  hitsPerPage : ℕ
  aroundLatLng : Option (ℚ × ℚ)
  aroundRadius : Option ℕ
  aroundPrecision : Option ℕ
  filters : Option String
  warnedOutOfBounds : Bool
deriving DecidableEq, Repr

/-- The parameter-building prefix of `search_places` (everything before the
request is made): geographic filtering — with the warning-only bounds
check — and type filtering. -/
def search_places_params (query : String) (location : Option (ℚ × ℚ))
    (place_type : Option String) (radius : ℕ) : SearchParams :=
  let params : SearchParams :=
    { query := query, hitsPerPage := 20, aroundLatLng := none, aroundRadius := none,
      aroundPrecision := none, filters := none, warnedOutOfBounds := false }
  let params :=
    match location with
    | some (lat, lng) =>
        { params with
            warnedOutOfBounds := ¬ in_korea_bounds lat lng
            aroundLatLng := some (lat, lng)
            aroundRadius := some radius
            aroundPrecision := some 100 }
    | none => params
  match place_type with
  | some t => { params with filters := some ("category:" ++ normalize_place_type t) }
  | none => params

/-- `_ensure_result_completeness`: builds a fresh record holding exactly the
required keys, with safe defaults.  The invalid-location branch (a location
value that is not a `{lat, lng}` dict) is unrepresentable in the typed
model, where any present location is a pair. -/
def ensure_result_completeness (place : Rec) : Rec :=
  { Rec.empty with
      id := some ((place.id <|> place.objectID).getD "unknown")
      name := some (place.name.getD "Unknown Place")
      category := some (place.category.getD "place")
      location := some (place.location.getD (0, 0))
      rating := some (place.rating.getD 0)
      price_level := some (place.price_level.getD 1)
      cultural_context := some (place.cultural_context.getD "Korean cultural experience")
      neighborhood := some (place.neighborhood.getD "")
      description := some (place.description.getD "")
      opening_hours := some (place.opening_hours.getD [])
      contact := some (place.contact.getD [])
      cultural_tags := some (place.cultural_tags.getD [])
      amenities := some (place.amenities.getD [])
      search_score := some (place.search_score.getD 0)
      cultural_relevance := some (place.cultural_relevance.getD 0) }

/-- `neighborhood_insights` table of `SearchService._add_neighborhood_insights`. -/
def neighborhood_insights : List (String × String) :=
  [("hongdae", "Youth culture hub with vibrant nightlife and indie music scene"),
   ("myeongdong", "Shopping district famous for street food and cosmetics"),
   ("itaewon", "International district with diverse cuisine and nightlife"),
   ("gangnam", "Modern Seoul lifestyle with upscale shopping and dining"),
   ("jongno", "Historic district with traditional culture and palaces"),
   ("insadong", "Traditional arts and crafts area with tea houses")]

/-- `SearchService._add_neighborhood_insights`: append the per-district blurb
to the cultural context of a place in a known neighborhood. -/
def add_neighborhood_insights (place : Rec) : Rec :=
  let nb := lowerStr (pyStr place.neighborhood)
  match neighborhood_insights.lookup nb with
  | some blurb =>
      let existing_context := pyStr place.cultural_context
      let existing_context :=
        if ¬ existing_context.isEmpty ∧ ¬ endsWithStr existing_context "." then
          existing_context ++ ". "
        else if ¬ existing_context.isEmpty then existing_context ++ " "
        else existing_context
      { place with cultural_context := some (existing_context ++ blurb) }
  | none => place

/-- `cultural_keywords` list of `_enrich_search_results`. -/
def cultural_keywords : List String :=
  ["korean", "traditional", "authentic", "local", "cultural",
   "hanbok", "kimchi", "bulgogi", "temple", "palace",
   "k-pop", "hallyu", "seoul", "gangnam", "hongdae"]

/-- The loop body of `_enrich_search_results` for one raw hit.  The raw hit's
`search_score` field carries `hit['_rankingInfo']['nbTypos']`. -/
def enrich_one (hit : Rec) : Rec :=
  let enriched : Rec :=
    { Rec.empty with
        id := hit.objectID
        name := some (hit.name.getD "Unknown Place")
        category := some (hit.category.getD "place")
        location := some (hit.location.getD (37.5665, 126.9780))
        rating := some (hit.rating.getD 0)
        price_level := some (hit.price_level.getD 1)
        cultural_context := some (hit.cultural_context.getD "")
        neighborhood := some (hit.neighborhood.getD "")
        description := some (hit.description.getD "")
        opening_hours := some (hit.opening_hours.getD [])
        contact := some (hit.contact.getD [])
        cultural_tags := some (hit.cultural_tags.getD [])
        amenities := some (hit.amenities.getD [])
        search_score := some (hit.search_score.getD 0) }
  let cultural_text :=
    lowerStr (pyStr enriched.cultural_context) ++ " " ++
    lowerStr (pyStr enriched.description) ++ " " ++
    lowerStr (joinSpace (enriched.cultural_tags.getD []))
  let cultural_score : ℚ :=
    ((cultural_keywords.filter (fun k => strContains cultural_text k)).length : ℚ)
  let enriched := { enriched with cultural_relevance := some cultural_score }
  let enriched := add_neighborhood_insights enriched
  ensure_result_completeness enriched

/-- `_enrich_search_results`: enrich every hit, then sort descending by
`(cultural_relevance, rating, -search_score)`. -/
def enrich_search_results (hits : List Rec) : List Rec :=
  pySortDescByTriple
    (fun x => (x.cultural_relevance.getD 0, x.rating.getD 0, -(x.search_score.getD 0)))
    (hits.map enrich_one)

/-- The hardcoded `fallback_places` of `_get_fallback_search_results`. -/
def fallback_places : List Rec :=
  [{ Rec.empty with
       id := some "fallback_myeongdong_market", name := some "Myeongdong Street Food Market",
       category := some "restaurant", location := some (37.5636, 126.9822),
       rating := some 4.5, price_level := some 2,
       cultural_context := some "Traditional Korean street food experience with authentic flavors and local atmosphere",
       neighborhood := some "myeongdong",
       description := some "Bustling street food market offering authentic Korean snacks and meals",
       opening_hours := some ["10:00-22:00"], contact := some [("phone", "+82-2-1234-5678")],
       cultural_tags := some ["street-food", "traditional", "authentic", "korean-food"],
       amenities := some ["cash-only", "outdoor-seating"], cultural_relevance := some 5 },
   { Rec.empty with
       id := some "fallback_korean_bbq", name := some "Authentic Korean BBQ House",
       category := some "restaurant", location := some (37.5563, 126.9236),
       rating := some 4.6, price_level := some 3,
       cultural_context := some "Traditional Korean barbecue experience with premium meat and banchan",
       neighborhood := some "hongdae",
       description := some "Authentic Korean BBQ restaurant serving galbi, bulgogi, and traditional side dishes",
       opening_hours := some ["17:00-02:00"], contact := some [("phone", "+82-2-5678-1234")],
       cultural_tags := some ["bbq", "korean-food", "traditional", "meat"],
       amenities := some ["group-dining", "late-night"], cultural_relevance := some 5 },
   { Rec.empty with
       id := some "fallback_kimchi_house", name := some "Traditional Kimchi House",
       category := some "restaurant", location := some (37.5759, 126.9852),
       rating := some 4.4, price_level := some 2,
       cultural_context := some "Family-run restaurant specializing in homemade kimchi and traditional Korean comfort food",
       neighborhood := some "insadong",
       description := some "Traditional Korean restaurant famous for homemade kimchi and authentic Korean dishes",
       opening_hours := some ["11:00-21:00"], contact := some [("phone", "+82-2-9876-5432")],
       cultural_tags := some ["kimchi", "korean-food", "traditional", "homemade"],
       amenities := some ["family-friendly", "traditional-atmosphere"], cultural_relevance := some 5 },
   { Rec.empty with
       id := some "fallback_hongdae_playground", name := some "Hongdae Playground",
       category := some "attraction", location := some (37.5563, 126.9236),
       rating := some 4.3, price_level := some 1,
       cultural_context := some "Youth culture and nightlife hub showcasing modern Korean entertainment",
       neighborhood := some "hongdae",
       description := some "Vibrant area known for indie music, street performances, and youth culture",
       opening_hours := some ["24/7"], contact := some [],
       cultural_tags := some ["youth-culture", "nightlife", "modern"],
       amenities := some ["free-wifi", "street-performances"], cultural_relevance := some 4 },
   { Rec.empty with
       id := some "fallback_itaewon_global", name := some "Itaewon Global Village",
       category := some "attraction", location := some (37.5344, 126.9944),
       rating := some 4.2, price_level := some 2,
       cultural_context := some "International district showcasing Korea\x27s multicultural side",
       neighborhood := some "itaewon",
       description := some "Diverse international area with global cuisine and cultural fusion",
       opening_hours := some ["09:00-23:00"], contact := some [("website", "http://itaewon.or.kr")],
       cultural_tags := some ["international", "multicultural", "fusion"],
       amenities := some ["english-friendly", "diverse-cuisine"], cultural_relevance := some 3 },
   { Rec.empty with
       id := some "fallback_gangnam_district", name := some "Gangnam Style District",
       category := some "attraction", location := some (37.5173, 127.0473),
       rating := some 4.1, price_level := some 3,
       cultural_context := some "Modern Korean lifestyle and K-pop culture epicenter",
       neighborhood := some "gangnam",
       description := some "Upscale district representing modern Seoul and K-pop culture",
       opening_hours := some ["24/7"], contact := some [],
       cultural_tags := some ["k-pop", "modern", "upscale"],
       amenities := some ["luxury-shopping", "high-end-dining"], cultural_relevance := some 4 }]

/-- `_get_fallback_search_results(query, place_type)`: the hardcoded places,
filtered by normalized type and then by query-term substring match. -/
def get_fallback_search_results (query : String) (place_type : Option String) : List Rec :=
  let places :=
    match place_type with
    | some t => fallback_places.filter (fun p => p.category = some (normalize_place_type t))
    | none => fallback_places
  if query.isEmpty then places
  else
    let query_terms := splitWs (lowerStr query)
    places.filter (fun place =>
      let searchable_text :=
        lowerStr (pyStr place.name) ++ " " ++
        lowerStr (pyStr place.cultural_context) ++ " " ++
        lowerStr (pyStr place.description) ++ " " ++
        lowerStr (joinSpace (place.cultural_tags.getD []))
      query_terms.any (fun term => strContains searchable_text term))

/-- What `BaseService._make_request` hands back to `search_places`: either
the parsed API payload (a dict, always truthy) or — when the request raised
and `SearchService._handle_fallback` ran — a plain list of fallback places. -/
inductive AlgoliaResponse where
  | apiData (hits : List Rec)
  | fallbackList (l : List Rec)
deriving DecidableEq, Repr

/-- The outcome of the underlying `_api_request` call for one
`search_places` invocation; `.error` models any raised exception. -/
structure SearchEnv where
  apiResult : Except String (List Rec)
deriving Repr

/-- `_make_request(self._api_request, params)`: pass the call outcome
through; on any exception run `_handle_fallback`, which returns
`_get_fallback_search_results("korean places", None)`. -/
def make_request (env : SearchEnv) : AlgoliaResponse :=
  match env.apiResult with
  | .ok hits => .apiData hits
  | .error _ => .fallbackList (get_fallback_search_results "korean places" none)

/-- `search_places` after the request: `if not data` → query-specific
fallback; a list → returned as-is; a payload dict → enrich its hits. -/
def search_places (env : SearchEnv) (query : String) (location : Option (ℚ × ℚ))
    (place_type : Option String) (radius : ℕ) : List Rec :=
  let _params := search_places_params query location place_type radius
  match make_request env with
  | .fallbackList l =>
      if l.isEmpty then get_fallback_search_results query place_type else l
  | .apiData hits => enrich_search_results hits

/-- `search_places` including its `try/except` wrapper: any exception from
the body would be caught and converted to the query-specific fallback, so
the call always returns a list. -/
def search_places_exc (env : SearchEnv) (query : String) (location : Option (ℚ × ℚ))
    (place_type : Option String) (radius : ℕ) : Except String (List Rec) :=
  .ok (search_places env query location place_type radius)

end SearchService

/- ## src/utils/local_guide_system.py — LocalGuideSystem -/

namespace LocalGuideSystem

/-- One entry of `self.neighborhood_insights`. -/
structure NeighborhoodInfo where
  character : String
  best_for : List String
  cultural_significance : String
  authentic_experiences : List String
  avoid_tourist_traps : List String
deriving DecidableEq, Repr

/-- `_initialize_neighborhood_insights`, in dict order. -/
def neighborhood_insights : List (String × NeighborhoodInfo) :=
  [("hongdae",
    { character := "Youth culture, street food, nightlife"
      best_for := ["nightlife", "indie music", "street performances", "young crowd"]
      cultural_significance := "University area representing Korean youth culture"
      authentic_experiences := ["Live music venues", "Street food after 9 PM", "Indie shops"]
      avoid_tourist_traps := ["Overpriced themed cafes", "Chain restaurants in main area"] }),
   ("myeongdong",
    { character := "Shopping and tourist street food"
      best_for := ["shopping", "cosmetics", "street food", "first-time visitors"]
      cultural_significance := "Major commercial district showcasing Korean consumer culture"
      authentic_experiences := ["Korean cosmetics shopping", "Street food stalls", "Department stores"]
      avoid_tourist_traps := ["Overpriced restaurants targeting tourists", "Generic souvenir shops"] }),
   ("itaewon",
    { character := "International food and nightlife"
      best_for := ["international cuisine", "nightlife", "multicultural experience"]
      cultural_significance := "International district showing Korea\x27s global connections"
      authentic_experiences := ["Halal Korean fusion", "International bars", "Multicultural events"]
      avoid_tourist_traps := ["Generic Western food", "Overpriced foreigner-targeted venues"] }),
   ("gangnam",
    { character := "CafÃ©s, fine dining, upscale shopping"
      best_for := ["luxury shopping", "high-end dining", "modern Korean lifestyle"]
      cultural_significance := "Represents modern Korean affluence and K-pop culture"
      authentic_experiences := ["High-end Korean BBQ", "Designer shopping", "Trendy cafes"]
      avoid_tourist_traps := ["K-pop tourist shops", "Overpriced themed restaurants"] }),
   ("jongno",
    { character := "Historic district with traditional culture"
      best_for := ["history", "traditional culture", "palaces", "temples"]
      cultural_significance := "Historic heart of Seoul with traditional Korean culture"
      authentic_experiences := ["Palace visits", "Traditional tea houses", "Hanbok rental"]
      avoid_tourist_traps := ["Tourist-focused traditional restaurants", "Overpriced hanbok rentals"] }),
   ("insadong",
    { character := "Traditional arts and crafts with tea culture"
      best_for := ["traditional arts", "crafts shopping", "tea culture", "cultural experiences"]
      cultural_significance := "Traditional arts district preserving Korean cultural heritage"
      authentic_experiences := ["Traditional tea ceremonies", "Artisan workshops", "Antique shopping"]
      avoid_tourist_traps := ["Mass-produced \"traditional\" items", "Tourist-focused tea houses"] })]

/-- `korean_cultural_context['cultural_norms']`. -/
def cultural_norms : List (String × String) :=
  [("tipping", "Tipping is not customary in South Korea"),
   ("punctuality", "People value punctuality and personal space"),
   ("transport", "Public transport is preferred over taxis for short distances"),
   ("subway_etiquette", "Speaking loudly on subways is considered rude")]

/-- `korean_cultural_context['food_culture']`. -/
def food_culture : List (String × String) :=
  [("tteokbokki", "Spicy-sweet street food popular among students"),
   ("samgyeopsal", "Social meal eaten in groups, usually at night"),
   ("banchan", "Korean meals often include shared side dishes (banchan)"),
   ("street_food_timing", "Street food is best explored after sunset"),
   ("restaurant_specialization", "Restaurants often specialize in only one dish"),
   ("substitutions", "Asking for substitutions is uncommon"),
   ("closing_hours", "Many places close between 3â€“5 PM")]

/-- `self.authenticity_weights`, in dict order. -/
def authenticity_weights : List (String × ℚ) :=
  [("traditional", 1.0), ("local", 0.9), ("cultural", 0.8), ("authentic", 0.8),
   ("heritage", 0.7), ("modern_korean", 0.6), ("tourist", 0.2), ("generic", 0.1)]

/-- `theme_keywords` table of `_detect_cultural_themes`, in dict order. -/
def theme_keywords : List (String × List String) :=
  [("food_culture", ["food", "eat", "restaurant", "cuisine", "dining", "korean food", "bbq", "kimchi"]),
   ("traditional_culture", ["traditional", "temple", "palace", "hanbok", "heritage", "history"]),
   ("modern_culture", ["k-pop", "kpop", "modern", "trendy", "fashion", "technology"]),
   ("nightlife", ["nightlife", "bar", "club", "night", "party", "drink"]),
   ("shopping", ["shopping", "buy", "store", "market", "cosmetics", "fashion"]),
   ("nature", ["park", "nature", "hiking", "mountain", "river", "outdoor"]),
   ("entertainment", ["music", "movie", "show", "performance", "concert", "theater"])]

/-- `_detect_cultural_themes`. -/
def detect_cultural_themes (query : String) : List String :=
  let query_lower := lowerStr query
  let themes :=
    (theme_keywords.filter
      (fun p => p.2.any (fun keyword => strContains query_lower keyword))).map Prod.fst
  if themes.isEmpty then ["general_culture"] else themes

/-- `neighborhood_aliases` table of `_detect_neighborhood_focus`, in dict
order. -/
def neighborhood_aliases : List (String × String) :=
  [("hongik", "hongdae"), ("university", "hongdae"), ("shopping", "myeongdong"),
   ("international", "itaewon"), ("foreigner", "itaewon"), ("rich", "gangnam"),
   ("luxury", "gangnam"), ("palace", "jongno"), ("traditional", "insadong"),
   ("art", "insadong")]

/-- `_detect_neighborhood_focus`. -/
def detect_neighborhood_focus (query : String) : Option String :=
  let query_lower := lowerStr query
  match (neighborhood_insights.map Prod.fst).find?
      (fun neighborhood => strContains query_lower neighborhood) with
  | some neighborhood => some neighborhood
  | none =>
      match neighborhood_aliases.find? (fun p => strContains query_lower p.1) with
      | some p => some p.2
      | none => none

/-- The intent-analysis dict: the base keys produced by
`extract_entity_with_context` plus the two keys the orchestrator adds. -/
structure Intent where
  entity : String
  type' : String
  intent : String
  korean_related : Bool
  cultural_themes : List String
  neighborhood_focus : Option String
deriving DecidableEq, Repr

/-- The dict returned by a successful `extract_entity_with_context` call. -/
structure IntentBase where
  entity : String := ""
  type' : String := ""
  intent : String := ""
  korean_related : Bool := false
deriving DecidableEq, Repr

/-- `_fallback_intent_analysis`. -/
def fallback_intent_analysis (user_query : String) : Intent :=
  let query_lower := lowerStr user_query
  let entity :=
    ((splitWs user_query).find?
      (fun word => word.length > 3 ∧ word.data.all isAlphaChar)).getD "korean culture"
  let intent_type :=
    if ["eat", "food", "restaurant", "dining"].any (fun w => strContains query_lower w) then
      "restaurant"
    else if ["visit", "see", "attraction", "place"].any (fun w => strContains query_lower w) then
      "attraction"
    else if ["music", "movie", "show", "entertainment"].any (fun w => strContains query_lower w) then
      "entertainment"
    else "place"
  { entity := entity
    type' := intent_type
    intent := "seeking recommendations"
    korean_related := true
    cultural_themes := detect_cultural_themes user_query
    neighborhood_focus := detect_neighborhood_focus user_query }

/-- Outcomes of every outbound call one `get_recommendation` invocation can
make.  Availability flags model `is_available()` of each wrapped service;
each `Except` field models the corresponding call either returning a value
or raising. -/
structure Env where
  response_generator_available : Bool
  rg_intent : Except String IntentBase
  gemini_available : Bool
  gemini_intent : Except String IntentBase
  cultural_engine_available : Bool
  cultural_result : Except String (List Rec)
  search_service_available : Bool
  search_result : Except String (List Rec)
  neighborhood_result : Except String (List Rec)
  rg_response : Except String String
  gemini_response : Except String String
deriving Repr

/-- Enhancing a successful entity-extraction result with the two
orchestrator-computed keys, as both branches of `_analyze_user_intent` do. -/
def enhance_intent (base : IntentBase) (user_query : String) : Intent :=
  { entity := base.entity
    type' := base.type'
    intent := base.intent
    korean_related := base.korean_related
    cultural_themes := detect_cultural_themes user_query
    neighborhood_focus := detect_neighborhood_focus user_query }

/-- The legacy-Gemini second half of `_analyze_user_intent`. -/
def analyze_user_intent_gemini (env : Env) (user_query : String) : Intent :=
  if env.gemini_available then
    match env.gemini_intent with
    | .ok base => enhance_intent base user_query
    | .error _ => fallback_intent_analysis user_query
  else fallback_intent_analysis user_query

/-- `_analyze_user_intent`: ResponseGenerator first, then legacy Gemini,
then the deterministic fallback; an exception in either generative call
falls through to the next stage. -/
def analyze_user_intent (env : Env) (user_query : String) : Intent :=
  if env.response_generator_available then
    match env.rg_intent with
    | .ok base => enhance_intent base user_query
    | .error _ => analyze_user_intent_gemini env user_query
  else analyze_user_intent_gemini env user_query

/-- One entry of a profile's `visited_places` / `favorites` lists; `none`
models a dict without a `'name'` key. -/
structure NamedEntry where
  name : Option String := none
deriving DecidableEq, Repr

/-- The `user_profile` dict shape read by `_get_personalization_context`. -/
structure Profile where
  interests : List String := []
  food_restrictions : List String := []
  cultural_preferences : List String := []
  budget_range : Option String := none
  travel_style : Option String := none
  visited_places : List NamedEntry := []
  favorites : List NamedEntry := []
  preferred_neighborhoods : List String := []
deriving DecidableEq, Repr

/-- The dict built by `_get_personalization_context` for a truthy profile. -/
structure PersonalizationContext where
  interests : List String
  food_restrictions : List String
  cultural_preferences : List String
  budget_range : String
  travel_style : String
  visited_places : List String
  favorite_places : List String
  preferred_neighborhoods : List String
deriving DecidableEq, Repr

/-- `[place['name'] for place in entries]`: raises `KeyError` on the first
entry without a `'name'` key. -/
def py_names : List NamedEntry → Except String (List String)
  | [] => .ok []
  | e :: rest =>
      match e.name with
      | some n => do
          let ns ← py_names rest
          return n :: ns
      | none => .error "KeyError: \x27name\x27"

/-- `_get_personalization_context`: `{}` (here `none`) for a falsy profile,
otherwise the context dict — whose visited/favorite comprehensions can
raise. -/
def get_personalization_context (user_profile : Option Profile) :
    Except String (Option PersonalizationContext) :=
  match user_profile with
  | none => .ok none
  | some p => do
      let visited ← py_names p.visited_places
      let favorites ← py_names p.favorites
      return some
        { interests := p.interests
          food_restrictions := p.food_restrictions
          cultural_preferences := p.cultural_preferences
          budget_range := p.budget_range.getD "mid-range"
          travel_style := p.travel_style.getD "solo"
          visited_places := visited
          favorite_places := favorites
          preferred_neighborhoods := p.preferred_neighborhoods }

/-- `restriction_keywords` table of `_violates_food_restrictions`. -/
def restriction_keywords : List (String × List String) :=
  [("vegetarian", ["meat", "beef", "pork", "chicken", "fish", "seafood", "bbq"]),
   ("vegan", ["meat", "beef", "pork", "chicken", "fish", "seafood", "dairy", "egg", "bbq"]),
   ("no_spicy", ["spicy", "hot", "chili", "gochujang", "kimchi"]),
   ("halal", ["pork", "alcohol", "wine", "beer"]),
   ("gluten_free", ["wheat", "noodle", "bread", "flour"])]

/-- The lower-cased `rec_text` built from `Name`, `wTeaser`, `description`
and `cultural_tags`, shared by `_violates_food_restrictions` and
`_calculate_personalization_score`. -/
def rec_text_of (recommendation : Rec) : String :=
  let name := pyStr recommendation.Name
  let teaser := pyStr recommendation.wTeaser
  let description := pyStr recommendation.description
  let cultural_tags_str := joinSpace (recommendation.cultural_tags.getD [])
  lowerStr (name ++ " " ++ teaser ++ " " ++ description ++ " " ++ cultural_tags_str)

/-- `_violates_food_restrictions`. -/
def violates_food_restrictions (recommendation : Rec) (restrictions : List String) : Bool :=
  if restrictions.isEmpty then false
  else
    let rec_text := rec_text_of recommendation
    restrictions.any (fun restriction =>
      match restriction_keywords.lookup (lowerStr restriction) with
      | some keywords => keywords.any (fun keyword => strContains rec_text keyword)
      | none => false)

/-- `_calculate_personalization_score`. -/
def calculate_personalization_score (recommendation : Rec)
    (user_interests cultural_preferences : List String) : ℚ :=
  let rec_text := rec_text_of recommendation
  (user_interests.map
    (fun interest => if strContains rec_text (lowerStr interest) then (0.3 : ℚ) else 0)).sum
  + (cultural_preferences.map
    (fun preference => if strContains rec_text (lowerStr preference) then (0.2 : ℚ) else 0)).sum
  + (recommendation.cultural_relevance.getD 0) * 0.1

/-- The restaurant test of `_apply_personalization_filtering`:
`rec.get('category') == 'restaurant' or 'restaurant' in rec.get('Type', '').lower()`. -/
def is_restaurant_rec (recommendation : Rec) : Bool :=
  decide (recommendation.category = some "restaurant")
    || strContains (lowerStr (pyStr recommendation.Type')) "restaurant"

/-- `rec.get('Name', rec.get('name', ''))`. -/
def rec_display_name (recommendation : Rec) : String :=
  pyStr (recommendation.Name <|> recommendation.name)

/-- The filtering loop of `_apply_personalization_filtering`: drop visited
places, drop restaurant records violating a food restriction, stamp the
personalization score on everything kept. -/
def personalization_filter_loop (visited food_restrictions user_interests
    cultural_preferences : List String) : List Rec → List Rec
  | [] => []
  | r :: rest =>
      if rec_display_name r ∈ visited then
        personalization_filter_loop visited food_restrictions user_interests
          cultural_preferences rest
      else if is_restaurant_rec r ∧ violates_food_restrictions r food_restrictions then
        personalization_filter_loop visited food_restrictions user_interests
          cultural_preferences rest
      else
        let score := calculate_personalization_score r user_interests cultural_preferences
        { r with personalization_score := some score }
          :: personalization_filter_loop visited food_restrictions user_interests
              cultural_preferences rest

/-- `_apply_personalization_filtering`: filter, then sort descending by
personalization score.  The `set(...)` constructions become `dedup`. -/
def apply_personalization_filtering (recommendations : List Rec)
    (ctx : PersonalizationContext) : List Rec :=
  let filtered := personalization_filter_loop ctx.visited_places.dedup
    ctx.food_restrictions ctx.interests.dedup ctx.cultural_preferences.dedup recommendations
  pySortDescBy (fun x => x.personalization_score.getD 0) filtered

/-- `_calculate_authenticity_score` of the orchestrator: base 0.5, plus
weighted keyword hits (weight × 0.1), +0.2 for `local_knowledge` source,
+0.1 for a known neighborhood (raw key, no lower-casing), capped at 1.0. -/
def calculate_authenticity_score (recommendation : Rec) : ℚ :=
  let name := pyStr recommendation.Name
  let teaser := pyStr recommendation.wTeaser
  let description := pyStr recommendation.description
  let cultural_context := pyStr recommendation.cultural_context
  let cultural_tags_str := joinSpace (recommendation.cultural_tags.getD [])
  let rec_text := lowerStr (name ++ " " ++ teaser ++ " " ++ description ++ " " ++
    cultural_context ++ " " ++ cultural_tags_str)
  let score := (0.5 : ℚ)
    + (authenticity_weights.map
        (fun p => if strContains rec_text p.1 then p.2 * 0.1 else 0)).sum
  let score :=
    if recommendation.source = some "local_knowledge" then score + 0.2 else score
  let score :=
    match recommendation.neighborhood with
    | some n => if (neighborhood_insights.lookup n).isSome then score + 0.1 else score
    | none => score
  min score 1

/-- `_prioritize_authentic_experiences`: stamp a fresh authenticity score on
every record, then sort descending by `(authenticity_score,
cultural_relevance)`. -/
def prioritize_authentic_experiences (recommendations : List Rec) : List Rec :=
  pySortDescByPair
    (fun x => (x.authenticity_score.getD 0, x.cultural_relevance.getD 0))
    (recommendations.map
      (fun r => { r with authenticity_score := some (calculate_authenticity_score r) }))

/-- `LocalGuideSystem._add_neighborhood_insights` (per record). -/
def add_neighborhood_insights_one (r : Rec) : Rec :=
  let neighborhood := lowerStr (pyStr r.neighborhood)
  match neighborhood_insights.lookup neighborhood with
  | some info =>
      let existing_context := pyStr r.cultural_context
      let existing_context :=
        if ¬ existing_context.isEmpty ∧ ¬ endsWithStr existing_context "." then
          existing_context ++ ". "
        else if ¬ existing_context.isEmpty then existing_context ++ " "
        else existing_context
      let located :=
        existing_context ++ "Located in " ++ titleStr neighborhood ++ ": " ++ info.character
      let r :=
        if info.character.isEmpty then r
        else { r with cultural_context := some located }
      let attachment : InsightAttachment :=
        { best_for := info.best_for
          cultural_significance := info.cultural_significance
          authentic_experiences := info.authentic_experiences
          avoid_tourist_traps := info.avoid_tourist_traps }
      { r with neighborhood_insights := some attachment }
  | none => r

/-- `LocalGuideSystem._add_neighborhood_insights`. -/
def add_neighborhood_insights (recommendations : List Rec) : List Rec :=
  recommendations.map add_neighborhood_insights_one

/-- `_extract_relevant_neighborhood_insights`: first-seen known
neighborhoods, as an association list. -/
def extract_relevant_neighborhood_insights (recommendations : List Rec) :
    List (String × NeighborhoodInfo) :=
  recommendations.foldl
    (fun acc r =>
      let neighborhood := lowerStr (pyStr r.neighborhood)
      match neighborhood_insights.lookup neighborhood with
      | some info =>
          if acc.any (fun p => p.1 = neighborhood) then acc else acc ++ [(neighborhood, info)]
      | none => acc)
    []

/-- `_calculate_overall_authenticity_score`: 0.0 for an empty list, else the
mean of `authenticity_score` (0 default). -/
def calculate_overall_authenticity_score (recommendations : List Rec) : ℚ :=
  if recommendations.isEmpty then 0
  else (recommendations.map (fun r => r.authenticity_score.getD 0)).sum / recommendations.length

/-- The `source`/`recommendation_type` tagging of cultural results. -/
def tag_cultural (r : Rec) : Rec :=
  { r with source := some "cultural_discovery", recommendation_type := some "cultural_experience" }

/-- The `source`/`recommendation_type` tagging of place-search results. -/
def tag_place (r : Rec) : Rec :=
  { r with source := some "search_service", recommendation_type := some "place" }

/-- The `source`/`recommendation_type` tagging of neighborhood results. -/
def tag_neighborhood (r : Rec) : Rec :=
  { r with source := some "neighborhood_search", recommendation_type := some "neighborhood_place" }

/-- `_coordinate_recommendation_services`: fan out to the three adapters
(each failure isolated, contributing an empty list), concatenate — capping
place results at 6 and neighborhood results at 4 — then apply
personalization filtering when a context is present.  No deduplication is
performed anywhere in this step. -/
def coordinate_recommendation_services (env : Env) (intent_analysis : Intent)
    (personalization_context : Option PersonalizationContext) : List Rec :=
  let cultural :=
    if env.cultural_engine_available then
      match env.cultural_result with
      | .ok recs => recs.map tag_cultural
      | .error _ => []
    else []
  let places :=
    if env.search_service_available then
      match env.search_result with
      | .ok recs => (recs.map tag_place).take 6
      | .error _ => []
    else []
  let neighborhood :=
    match intent_analysis.neighborhood_focus with
    | some _ =>
        match env.neighborhood_result with
        | .ok recs => (recs.map tag_neighborhood).take 4
        | .error _ => []
    | none => []
  let all_recommendations := cultural ++ places ++ neighborhood
  match personalization_context with
  | some ctx => apply_personalization_filtering all_recommendations ctx
  | none => all_recommendations

end LocalGuideSystem

namespace LocalGuideSystem

/-- `_generate_fallback_response` for an empty recommendation list: the
fixed neighborhood-list HTML with one cultural tip. -/
def fallback_response_empty (cultural_tip : String) : String :=
  "\n            <div class=\"local-guide-response\">\n" ++
  "                <p>ì•ˆë…•í•˜ì„¸ìš”! (Hello!) As your Korean local guide, I\x27d love to help you explore authentic Korean culture.</p>\n" ++
  "                <p>For your question about Korean experiences, I recommend exploring these neighborhoods:</p>\n" ++
  "                <ul>\n" ++
  "                    <li><strong>Hongdae</strong> - Youth culture and nightlife</li>\n" ++
  "                    <li><strong>Myeongdong</strong> - Shopping and street food</li>\n" ++
  "                    <li><strong>Itaewon</strong> - International district</li>\n" ++
  "                    <li><strong>Insadong</strong> - Traditional arts and tea culture</li>\n" ++
  "                </ul>\n" ++
  "                <p><em>Cultural tip: " ++ cultural_tip ++ "</em></p>\n" ++
  "            </div>\n            "

/-- One `<li>` line of the places section of `_generate_fallback_response`. -/
def fallback_place_li (place : Rec) : String :=
  let name := (place.Name <|> place.name).getD "Korean Place"
  let context := place.cultural_context.getD "Authentic Korean experience"
  "<li><strong>" ++ name ++ "</strong> - " ++ context ++ "</li>"

/-- One `<li>` line of the experiences section of
`_generate_fallback_response`. -/
def fallback_experience_li (exp : Rec) : String :=
  let name := exp.Name.getD "Korean Cultural Experience"
  let teaser := exp.wTeaser.getD "Authentic Korean cultural activity"
  "<li><strong>" ++ name ++ "</strong> - " ++ teaser ++ "</li>"

/-- `_generate_fallback_response`: the deterministic structured response used
when both generative services are unavailable.  Pure string building — it
cannot raise. -/
def generate_fallback_response (user_query : String) (recommendations : List Rec)
    (cultural_context : List String) : String :=
  if recommendations.isEmpty then
    let cultural_tip :=
      (cultural_context.head?).getD "Tipping is not customary in South Korea."
    fallback_response_empty cultural_tip
  else
    let places := recommendations.filter (fun r => r.recommendation_type = some "place")
    let experiences :=
      recommendations.filter (fun r => r.recommendation_type = some "cultural_experience")
    let response_parts :=
      ["<div class=\"local-guide-response\">",
       "<p>ì•ˆë…•í•˜ì„¸ìš”! (Hello!) Here are my authentic Korean recommendations:</p>"]
    let response_parts := response_parts ++
      (if places.isEmpty then []
       else ["<h4>ğŸ\x7fì® Places to Visit:</h4>", "<ul>"] ++
         ((places.take 3).map fallback_place_li) ++ ["</ul>"])
    let response_parts := response_parts ++
      (if experiences.isEmpty then []
       else ["<h4>ğŸ\x7fì­ Cultural Experiences:</h4>", "<ul>"] ++
         ((experiences.take 3).map fallback_experience_li) ++ ["</ul>"])
    let response_parts := response_parts ++
      (match cultural_context.head? with
       | some tip => ["<p><em>ğŸ\x27¡ Cultural tip: " ++ tip ++ "</em></p>"]
       | none => [])
    let response_parts := response_parts ++ ["</div>"]
    String.join response_parts

/-- The `cultural_context_elements` list built by
`_generate_cultural_response` before delegation. -/
def cultural_context_elements (intent_analysis : Intent) : List String :=
  let food_elems :=
    if "food_culture" ∈ intent_analysis.cultural_themes then
      [(food_culture.lookup "banchan").getD "",
       (food_culture.lookup "street_food_timing").getD ""]
    else []
  let nb_elems :=
    match intent_analysis.neighborhood_focus with
    | some focus =>
        match neighborhood_insights.lookup focus with
        | some info => [titleStr focus ++ ": " ++ info.character]
        | none => []
    | none => []
  food_elems ++ nb_elems ++
    [(cultural_norms.lookup "tipping").getD "", (cultural_norms.lookup "punctuality").getD ""]

/-- The legacy-Gemini second half of `_generate_cultural_response`. -/
def generate_response_via_gemini (env : Env) (user_query : String)
    (recommendations : List Rec) (elems : List String) : String :=
  if env.gemini_available then
    match env.gemini_response with
    | .ok s => s
    | .error _ => generate_fallback_response user_query recommendations elems
  else generate_fallback_response user_query recommendations elems

/-- `_generate_cultural_response`: ResponseGenerator first, then legacy
Gemini, then the deterministic structured fallback; exceptions in either
generative call fall through. -/
def generate_cultural_response (env : Env) (user_query : String)
    (recommendations : List Rec) (intent_analysis : Intent) : String :=
  let elems := cultural_context_elements intent_analysis
  let _cultural_context_text := String.intercalate ". " elems
  if env.response_generator_available then
    match env.rg_response with
    | .ok s => s
    | .error _ => generate_response_via_gemini env user_query recommendations elems
  else generate_response_via_gemini env user_query recommendations elems

/-- The result dict of `get_recommendation`.  `fallback_used = none` models
the key being absent from the dict. -/
structure OrchestrationResult where
  response : String
  recommendations : List Rec
  cultural_context : List String
  neighborhood_insights : List (String × NeighborhoodInfo)
  authenticity_score : ℚ
  personalization_applied : Bool
  fallback_used : Option Bool
deriving Repr

/-- The `try` body of `get_recommendation` (steps 1-6 and the success-path
result dict, which carries no `fallback_used` key).  The `location`
argument's only use in the source is as the geographic bias of the place
search, whose outcome `Env` already carries, so it is unused here. -/
def get_recommendation_body (env : Env) (user_query : String)
    (user_profile : Option Profile) (_location : Option (ℚ × ℚ)) :
    Except String OrchestrationResult := do
  let intent_analysis := analyze_user_intent env user_query
  let personalization_context ← get_personalization_context user_profile
  let recommendations :=
    coordinate_recommendation_services env intent_analysis personalization_context
  let prioritized_recommendations := prioritize_authentic_experiences recommendations
  let enriched_recommendations := add_neighborhood_insights prioritized_recommendations
  let response :=
    generate_cultural_response env user_query enriched_recommendations intent_analysis
  let result : OrchestrationResult :=
    { response := response
      recommendations := enriched_recommendations
      cultural_context := intent_analysis.cultural_themes
      neighborhood_insights := extract_relevant_neighborhood_insights enriched_recommendations
      authenticity_score := calculate_overall_authenticity_score enriched_recommendations
      personalization_applied := personalization_context.isSome
      fallback_used := none }
  return result

/-- The hardcoded 3-item set of `_handle_recommendation_fallback`. -/
def fallback_recommendations : List Rec :=
  [{ Rec.empty with
       Name := some "Gyeongbokgung Palace", Type' := some "attraction",
       cultural_context := some "Historic royal palace showcasing traditional Korean architecture",
       neighborhood := some "jongno", authenticity_score := some 0.9,
       source := some "fallback" },
   { Rec.empty with
       Name := some "Hongdae Street Food", Type' := some "food",
       cultural_context := some "Authentic Korean street food experience in youth culture district",
       neighborhood := some "hongdae", authenticity_score := some 0.8,
       source := some "fallback" },
   { Rec.empty with
       Name := some "Insadong Traditional Tea House", Type' := some "experience",
       cultural_context := some "Traditional Korean tea ceremony and cultural experience",
       neighborhood := some "insadong", authenticity_score := some 0.9,
       source := some "fallback" }]

/-- `_handle_recommendation_fallback`: the orchestrator-level last line of
defense — fixed data, pure string building, `fallback_used = True`. -/
def handle_recommendation_fallback (user_query : String)
    (_user_profile : Option Profile) : OrchestrationResult :=
  let fallback_response :=
    generate_fallback_response user_query fallback_recommendations
      [(cultural_norms.lookup "tipping").getD ""]
  { response := fallback_response
    recommendations := fallback_recommendations
    cultural_context := ["general_culture"]
    neighborhood_insights := []
    authenticity_score := 0.8
    personalization_applied := false
    fallback_used := some true }

/-- `get_recommendation`: run the body; any exception is caught and replaced
by the fallback result. -/
def get_recommendation (env : Env) (user_query : String)
    (user_profile : Option Profile) (location : Option (ℚ × ℚ)) : OrchestrationResult :=
  match get_recommendation_body env user_query user_profile location with
  | .ok result => result
  | .error _ => handle_recommendation_fallback user_query user_profile

/-- `get_recommendation` seen at the exception level: the `try/except`
yields `.ok` of the body's result on success and `.ok` of the fallback dict
otherwise — the handler itself is exception-free. -/
def get_recommendation_exc (env : Env) (user_query : String)
    (user_profile : Option Profile) (location : Option (ℚ × ℚ)) :
    Except String OrchestrationResult :=
  match get_recommendation_body env user_query user_profile location with
  | .ok result => .ok result
  | .error _ => .ok (handle_recommendation_fallback user_query user_profile)

end LocalGuideSystem

/- ## Shared helper lemmas -/

/-- A sum of keyword-conditional non-negative contributions is non-negative. -/
lemma sum_ite_map_nonneg {α : Type} (l : List α) (c : α → Bool) (w : α → ℚ)
    (hw : ∀ a ∈ l, 0 ≤ w a) :
    0 ≤ (l.map (fun a => if c a then w a else 0)).sum := by
  apply List.sum_nonneg
  intro x hx
  obtain ⟨k, hk, rfl⟩ := List.mem_map.mp hx
  by_cases h : c k = true
  · simpa [h] using hw k hk
  · simp [h]

/-- Every tier weight of the cultural-relevance keyword loop is non-negative. -/
lemma keywordWeight_nonneg (k : String) : 0 ≤ CulturalDiscoveryEngine.keywordWeight k := by
  unfold CulturalDiscoveryEngine.keywordWeight
  split_ifs <;> norm_num

/-- Every entry of the orchestrator's authenticity-weight table is
non-negative after the ×0.1 scaling. -/
lemma authenticity_weights_nonneg :
    ∀ p ∈ LocalGuideSystem.authenticity_weights, 0 ≤ p.2 * (0.1 : ℚ) := by
  intro p hp
  fin_cases hp <;> norm_num

/-- Bounds for the TasteDive cultural-relevance score. -/
lemma calculate_cultural_relevance_score_bounds (name description item_type : String) :
    0 ≤ CulturalDiscoveryEngine.calculate_cultural_relevance_score name description item_type ∧
    CulturalDiscoveryEngine.calculate_cultural_relevance_score name description item_type ≤ 1 := by
  simp only [CulturalDiscoveryEngine.calculate_cultural_relevance_score]
  refine ⟨le_min ?_ (by norm_num), min_le_right _ _⟩
  have h1 := sum_ite_map_nonneg CulturalDiscoveryEngine.korean_cultural_keywords
    (fun k => strContains (lowerStr (name ++ " " ++ description)) k)
    CulturalDiscoveryEngine.keywordWeight (fun k _ => keywordWeight_nonneg k)
  have h2 := sum_ite_map_nonneg CulturalDiscoveryEngine.cultural_indicators
    (fun k => strContains (lowerStr (name ++ " " ++ description)) k)
    (fun _ => (0.05 : ℚ)) (fun _ _ => by norm_num)
  have h3 := sum_ite_map_nonneg CulturalDiscoveryEngine.korean_elements
    (fun k => strContains (lowerStr (name ++ " " ++ description)) k)
    (fun _ => (0.15 : ℚ)) (fun _ _ => by norm_num)
  have h4 := sum_ite_map_nonneg CulturalDiscoveryEngine.asian_indicators
    (fun k => strContains (lowerStr (name ++ " " ++ description)) k)
    (fun _ => (0.1 : ℚ)) (fun _ _ => by norm_num)
  split_ifs with h
  · norm_num
  · linarith

/-- Bounds for the TasteDive authenticity score. -/
lemma calculate_authenticity_score_TD_bounds (name description : String) :
    (1 : ℚ)/2 ≤ CulturalDiscoveryEngine.calculate_authenticity_score name description ∧
    CulturalDiscoveryEngine.calculate_authenticity_score name description ≤ 1 := by
  simp only [CulturalDiscoveryEngine.calculate_authenticity_score]
  refine ⟨le_min ?_ (by norm_num), min_le_right _ _⟩
  have h1 := sum_ite_map_nonneg CulturalDiscoveryEngine.authentic_elements
    (fun k => strContains (lowerStr (name ++ " " ++ description)) k)
    (fun _ => (0.1 : ℚ)) (fun _ _ => by norm_num)
  have h2 := sum_ite_map_nonneg CulturalDiscoveryEngine.modern_elements
    (fun k => strContains (lowerStr (name ++ " " ++ description)) k)
    (fun _ => (0.05 : ℚ)) (fun _ _ => by norm_num)
  linarith

/-- Bounds for the orchestrator's per-record authenticity score. -/
lemma calculate_authenticity_score_LG_bounds (r : Rec) :
    (1 : ℚ)/2 ≤ LocalGuideSystem.calculate_authenticity_score r ∧
    LocalGuideSystem.calculate_authenticity_score r ≤ 1 := by
  simp only [LocalGuideSystem.calculate_authenticity_score]
  refine ⟨le_min ?_ (by norm_num), min_le_right _ _⟩
  have hS := sum_ite_map_nonneg LocalGuideSystem.authenticity_weights
    (fun p => strContains (lowerStr (pyStr r.Name ++ " " ++ pyStr r.wTeaser ++ " " ++
      pyStr r.description ++ " " ++ pyStr r.cultural_context ++ " " ++
      joinSpace (r.cultural_tags.getD []))) p.1)
    (fun p => p.2 * (0.1 : ℚ)) authenticity_weights_nonneg
  simp only [] at hS
  cases r.neighborhood <;> dsimp only <;> split_ifs <;> linarith

/- ## C2 — circuit breaker opens after five failures and fails fast -/

/-- A fresh breaker with `failure_threshold = 5` after five consecutive
failing calls at the given times. -/
def fail_five (rt t1 t2 t3 t4 t5 : ℚ) (e1 e2 e3 e4 e5 : String) : CircuitBreaker :=
  (((((CircuitBreaker.new 5 rt).failStep t1 e1).failStep t2 e2).failStep
    t3 e3).failStep t4 e4).failStep t5 e5

/-- C2: with `failure_threshold = 5`, five consecutive failing calls leave a
fresh breaker OPEN (counter 5, last failure stamped), and any further call
made before `recovery_timeout` has elapsed since the last failure is
rejected with the unavailable error without invoking the wrapped
function — whatever that function would have returned. -/
theorem circuit_breaker_opens_after_five_failures
    (rt t1 t2 t3 t4 t5 t6 : ℚ) (e1 e2 e3 e4 e5 : String) {α : Type}
    (outcome : Except String α) (h6 : t6 - t5 < rt) :
    (fail_five rt t1 t2 t3 t4 t5 e1 e2 e3 e4 e5).state = CircuitState.open' ∧
    (fail_five rt t1 t2 t3 t4 t5 e1 e2 e3 e4 e5).failure_count = 5 ∧
    (fail_five rt t1 t2 t3 t4 t5 e1 e2 e3 e4 e5).last_failure_time = some t5 ∧
    ((fail_five rt t1 t2 t3 t4 t5 e1 e2 e3 e4 e5).call t6 outcome).invoked = false ∧
    ((fail_five rt t1 t2 t3 t4 t5 e1 e2 e3 e4 e5).call t6 outcome).result =
      Except.error "Circuit breaker is OPEN - service unavailable" := by
  have s1 : (CircuitBreaker.new 5 rt).failStep t1 e1 =
      ⟨5, rt, 1, some t1, CircuitState.closed⟩ := rfl
  have s2 : (⟨5, rt, 1, some t1, CircuitState.closed⟩ : CircuitBreaker).failStep t2 e2 =
      ⟨5, rt, 2, some t2, CircuitState.closed⟩ := rfl
  have s3 : (⟨5, rt, 2, some t2, CircuitState.closed⟩ : CircuitBreaker).failStep t3 e3 =
      ⟨5, rt, 3, some t3, CircuitState.closed⟩ := rfl
  have s4 : (⟨5, rt, 3, some t3, CircuitState.closed⟩ : CircuitBreaker).failStep t4 e4 =
      ⟨5, rt, 4, some t4, CircuitState.closed⟩ := rfl
  have s5 : (⟨5, rt, 4, some t4, CircuitState.closed⟩ : CircuitBreaker).failStep t5 e5 =
      ⟨5, rt, 5, some t5, CircuitState.open'⟩ := rfl
  have h5 : fail_five rt t1 t2 t3 t4 t5 e1 e2 e3 e4 e5 =
      ⟨5, rt, 5, some t5, CircuitState.open'⟩ := by
    unfold fail_five
    rw [s1, s2, s3, s4, s5]
  have hns : ¬ (t5 ≠ 0 ∧ t6 - t5 ≥ rt) := fun hh => absurd hh.2 (not_le.mpr h6)
  refine ⟨by rw [h5], by rw [h5], by rw [h5], ?_, ?_⟩ <;>
    simp [h5, CircuitBreaker.call, CircuitBreaker.should_attempt_reset, hns]

/-- Witness for C2 at `recovery_timeout = 60`, failures at times 1‥5 and a
sixth call at time 6. -/
theorem circuit_breaker_opens_after_five_failures_witness :
    ((6 : ℚ) - 5 < 60) ∧
    ((fail_five 60 1 2 3 4 5 "boom" "boom" "boom" "boom" "boom").state = CircuitState.open' ∧
    (fail_five 60 1 2 3 4 5 "boom" "boom" "boom" "boom" "boom").failure_count = 5 ∧
    (fail_five 60 1 2 3 4 5 "boom" "boom" "boom" "boom" "boom").last_failure_time = some 5 ∧
    ((fail_five 60 1 2 3 4 5 "boom" "boom" "boom" "boom" "boom").call 6
      (Except.ok (0 : ℕ))).invoked = false ∧
    ((fail_five 60 1 2 3 4 5 "boom" "boom" "boom" "boom" "boom").call 6
      (Except.ok (0 : ℕ))).result =
      Except.error "Circuit breaker is OPEN - service unavailable") :=
  ⟨by norm_num,
   circuit_breaker_opens_after_five_failures 60 1 2 3 4 5 6 "boom" "boom" "boom" "boom" "boom"
     (Except.ok (0 : ℕ)) (by norm_num)⟩

/- ## C7 — a single success resets the breaker -/

/-- C7: from any CLOSED or HALF_OPEN state and any failure count, one
successful call invokes the wrapped function, returns its value, resets the
failure counter to 0 and leaves the breaker CLOSED. -/
theorem circuit_breaker_success_resets (cb : CircuitBreaker) (now : ℚ) {α : Type} (a : α)
    (h : cb.state ≠ CircuitState.open') :
    (cb.call now (Except.ok a)).breaker.failure_count = 0 ∧
    (cb.call now (Except.ok a)).breaker.state = CircuitState.closed ∧
    (cb.call now (Except.ok a)).invoked = true ∧
    (cb.call now (Except.ok a)).result = Except.ok a := by
  have hc : ¬ (cb.state = CircuitState.open' ∧ ¬ (cb.should_attempt_reset now) = true) :=
    fun hh => h hh.1
  simp [CircuitBreaker.call, hc, h, CircuitBreaker.on_success]

/-- Witness for C7 at a HALF_OPEN breaker with failure count 3. -/
theorem circuit_breaker_success_resets_witness :
    (({ failure_threshold := 5, recovery_timeout := 60, failure_count := 3,
        last_failure_time := some 10, state := CircuitState.halfOpen } : CircuitBreaker).state ≠
      CircuitState.open') ∧
    (({ failure_threshold := 5, recovery_timeout := 60, failure_count := 3,
        last_failure_time := some 10,
        state := CircuitState.halfOpen } : CircuitBreaker).call 42 (Except.ok (7 : ℕ))).breaker.failure_count = 0 ∧
    (({ failure_threshold := 5, recovery_timeout := 60, failure_count := 3,
        last_failure_time := some 10,
        state := CircuitState.halfOpen } : CircuitBreaker).call 42 (Except.ok (7 : ℕ))).breaker.state = CircuitState.closed ∧
    (({ failure_threshold := 5, recovery_timeout := 60, failure_count := 3,
        last_failure_time := some 10,
        state := CircuitState.halfOpen } : CircuitBreaker).call 42 (Except.ok (7 : ℕ))).invoked = true ∧
    (({ failure_threshold := 5, recovery_timeout := 60, failure_count := 3,
        last_failure_time := some 10,
        state := CircuitState.halfOpen } : CircuitBreaker).call 42 (Except.ok (7 : ℕ))).result = Except.ok 7 := by
  refine ⟨by decide, ?_⟩
  exact circuit_breaker_success_resets _ 42 7 (by decide)

/- ## C5 — scoring functions are pure and bounded -/

/-- C5: the cultural-relevance and authenticity scoring functions are pure
functions of their text input — two calls on identical input give identical
output — and their results always lie in `[0, 1]`; the orchestrator's
authenticity score (also cited by the spec) is bounded the same way. -/
theorem scoring_functions_pure_and_bounded (name description item_type : String) (r : Rec) :
    (CulturalDiscoveryEngine.calculate_cultural_relevance_score name description item_type =
        CulturalDiscoveryEngine.calculate_cultural_relevance_score name description item_type ∧
      0 ≤ CulturalDiscoveryEngine.calculate_cultural_relevance_score name description item_type ∧
      CulturalDiscoveryEngine.calculate_cultural_relevance_score name description item_type ≤ 1) ∧
    (CulturalDiscoveryEngine.calculate_authenticity_score name description =
        CulturalDiscoveryEngine.calculate_authenticity_score name description ∧
      0 ≤ CulturalDiscoveryEngine.calculate_authenticity_score name description ∧
      CulturalDiscoveryEngine.calculate_authenticity_score name description ≤ 1) ∧
    (0 ≤ LocalGuideSystem.calculate_authenticity_score r ∧
      LocalGuideSystem.calculate_authenticity_score r ≤ 1) := by
  obtain ⟨ha, hb⟩ := calculate_cultural_relevance_score_bounds name description item_type
  obtain ⟨hc, hd⟩ := calculate_authenticity_score_TD_bounds name description
  obtain ⟨he, hf⟩ := calculate_authenticity_score_LG_bounds r
  exact ⟨⟨rfl, ha, hb⟩, ⟨rfl, by linarith, hd⟩, by linarith, hf⟩

/- ## C10 — prioritized records score in [0.5, 1]; the mean is at least 0.5 -/

/-- Every record the prioritization step emits is the input record with a
freshly computed authenticity score. -/
lemma prioritize_mem_shape (recs : List Rec) (x : Rec)
    (hx : x ∈ LocalGuideSystem.prioritize_authentic_experiences recs) :
    ∃ y ∈ recs,
      x = { y with authenticity_score := some (LocalGuideSystem.calculate_authenticity_score y) } := by
  unfold LocalGuideSystem.prioritize_authentic_experiences pySortDescByPair at hx
  have hx' := (List.perm_insertionSort _ _).mem_iff.mp hx
  obtain ⟨y, hy, rfl⟩ := List.mem_map.mp hx'
  exact ⟨y, hy, rfl⟩

/-- A list of rationals all at least `c` sums to at least `c` per element. -/
lemma mul_length_le_sum (c : ℚ) (l : List ℚ) (h : ∀ x ∈ l, c ≤ x) :
    (l.length : ℚ) * c ≤ l.sum := by
  induction l with
  | nil => simp
  | cons a t ih =>
      have ha := h a (List.mem_cons_self a t)
      have ht := ih (fun x hx => h x (List.mem_cons_of_mem a hx))
      simp only [List.sum_cons, List.length_cons]
      push_cast
      nlinarith

/-- C10: the per-record authenticity score is always in `[0.5, 1]` (base 0.5,
non-negative additions, cap 1.0); every record leaving the prioritization
step carries such a score; hence for a non-empty list the overall
authenticity score — the arithmetic mean — is at least 0.5. -/
theorem prioritized_authenticity_bounds (r : Rec) (recs : List Rec) (h : recs ≠ []) :
    ((1 : ℚ)/2 ≤ LocalGuideSystem.calculate_authenticity_score r ∧
      LocalGuideSystem.calculate_authenticity_score r ≤ 1) ∧
    (∀ x ∈ LocalGuideSystem.prioritize_authentic_experiences recs,
        ∃ v, x.authenticity_score = some v ∧ (1 : ℚ)/2 ≤ v ∧ v ≤ 1) ∧
    (1 : ℚ)/2 ≤ LocalGuideSystem.calculate_overall_authenticity_score
        (LocalGuideSystem.prioritize_authentic_experiences recs) := by
  refine ⟨calculate_authenticity_score_LG_bounds r, ?_, ?_⟩
  · intro x hx
    obtain ⟨y, _, rfl⟩ := prioritize_mem_shape recs x hx
    exact ⟨_, rfl, calculate_authenticity_score_LG_bounds y⟩
  · have hlen : (LocalGuideSystem.prioritize_authentic_experiences recs).length = recs.length := by
      unfold LocalGuideSystem.prioritize_authentic_experiences pySortDescByPair
      rw [(List.perm_insertionSort _ _).length_eq, List.length_map]
    have hne : LocalGuideSystem.prioritize_authentic_experiences recs ≠ [] := by
      intro hnil
      have := hlen
      rw [hnil] at this
      exact h (List.eq_nil_of_length_eq_zero this.symm)
    have hsc : ∀ x ∈ (LocalGuideSystem.prioritize_authentic_experiences recs).map
        (fun rec => rec.authenticity_score.getD 0), (1 : ℚ)/2 ≤ x := by
      intro x hx
      obtain ⟨z, hz, rfl⟩ := List.mem_map.mp hx
      obtain ⟨y, _, rfl⟩ := prioritize_mem_shape recs z hz
      simpa using (calculate_authenticity_score_LG_bounds y).1
    have hsum := mul_length_le_sum ((1 : ℚ)/2) _ hsc
    rw [List.length_map] at hsum
    unfold LocalGuideSystem.calculate_overall_authenticity_score
    rw [if_neg (by simpa [List.isEmpty_iff] using hne)]
    have hpos : (0 : ℚ) < ((LocalGuideSystem.prioritize_authentic_experiences recs).length : ℚ) := by
      have : 0 < (LocalGuideSystem.prioritize_authentic_experiences recs).length :=
        List.length_pos.mpr hne
      exact_mod_cast this
    rw [le_div_iff hpos]
    calc (1 : ℚ)/2 * ((LocalGuideSystem.prioritize_authentic_experiences recs).length : ℚ)
        = ((LocalGuideSystem.prioritize_authentic_experiences recs).length : ℚ) * ((1 : ℚ)/2) := by
          ring
      _ ≤ _ := hsum

/-- Witness for C10 at the empty record and a one-element list. -/
theorem prioritized_authenticity_bounds_witness :
    ([Rec.empty] ≠ ([] : List Rec)) ∧
    (((1 : ℚ)/2 ≤ LocalGuideSystem.calculate_authenticity_score Rec.empty ∧
      LocalGuideSystem.calculate_authenticity_score Rec.empty ≤ 1) ∧
    (∀ x ∈ LocalGuideSystem.prioritize_authentic_experiences [Rec.empty],
        ∃ v, x.authenticity_score = some v ∧ (1 : ℚ)/2 ≤ v ∧ v ≤ 1) ∧
    (1 : ℚ)/2 ≤ LocalGuideSystem.calculate_overall_authenticity_score
        (LocalGuideSystem.prioritize_authentic_experiences [Rec.empty])) :=
  ⟨by simp, prioritized_authenticity_bounds Rec.empty [Rec.empty] (by simp)⟩

/- ## C8 — the vegetarian/pork food-restriction filter -/

/-- No record kept by the personalization filtering loop is a
restaurant-kind record that violates the given food restrictions. -/
lemma mem_personalization_filter_loop (visited food_restrictions user_interests
    cultural_preferences : List String) (l : List Rec) :
    ∀ x ∈ LocalGuideSystem.personalization_filter_loop visited food_restrictions
      user_interests cultural_preferences l,
      ¬ (LocalGuideSystem.is_restaurant_rec x = true ∧
         LocalGuideSystem.violates_food_restrictions x food_restrictions = true) := by
  induction l with
  | nil =>
      intro x hx
      simp [LocalGuideSystem.personalization_filter_loop] at hx
  | cons r rest ih =>
      intro x hx
      rw [LocalGuideSystem.personalization_filter_loop] at hx
      by_cases h1 : LocalGuideSystem.rec_display_name r ∈ visited
      · rw [if_pos h1] at hx
        exact ih x hx
      · rw [if_neg h1] at hx
        by_cases h2 : LocalGuideSystem.is_restaurant_rec r = true ∧
            LocalGuideSystem.violates_food_restrictions r food_restrictions = true
        · rw [if_pos h2] at hx
          exact ih x hx
        · rw [if_neg h2] at hx
          rcases List.mem_cons.mp hx with rfl | hmem
          · exact h2
          · exact ih x hmem

/-- A vegetarian restriction together with "pork" in the record text makes
`_violates_food_restrictions` fire. -/
lemma violates_of_vegetarian_pork (r : Rec) (restrictions : List String)
    (hveg : "vegetarian" ∈ restrictions)
    (hpork : strContains (LocalGuideSystem.rec_text_of r) "pork" = true) :
    LocalGuideSystem.violates_food_restrictions r restrictions = true := by
  unfold LocalGuideSystem.violates_food_restrictions
  rw [if_neg (by simp [List.isEmpty_iff, List.ne_nil_of_mem hveg])]
  apply List.any_eq_true.mpr
  refine ⟨"vegetarian", hveg, ?_⟩
  have hl : LocalGuideSystem.restriction_keywords.lookup (lowerStr "vegetarian") =
      some ["meat", "beef", "pork", "chicken", "fish", "seafood", "bbq"] := rfl
  rw [hl]
  apply List.any_eq_true.mpr
  exact ⟨"pork", by decide, hpork⟩

/-- C8: a restaurant-kind recommendation whose combined text (`Name`,
`wTeaser`, `description`, `cultural_tags`) contains "pork" is excluded by
the personalization filter for any user whose food restrictions include
`vegetarian`, whatever else the input list contains. -/
theorem food_restriction_filter_excludes (recommendations : List Rec)
    (ctx : LocalGuideSystem.PersonalizationContext) (r : Rec)
    (hveg : "vegetarian" ∈ ctx.food_restrictions)
    (hkind : LocalGuideSystem.is_restaurant_rec r = true)
    (hpork : strContains (LocalGuideSystem.rec_text_of r) "pork" = true) :
    r ∉ LocalGuideSystem.apply_personalization_filtering recommendations ctx := by
  intro hmem
  unfold LocalGuideSystem.apply_personalization_filtering pySortDescBy at hmem
  have hmem' := (List.perm_insertionSort _ _).mem_iff.mp hmem
  exact mem_personalization_filter_loop _ _ _ _ recommendations r hmem'
    ⟨hkind, violates_of_vegetarian_pork r ctx.food_restrictions hveg hpork⟩

/-- Witness for C8: a pork-themed restaurant record and a vegetarian user. -/
theorem food_restriction_filter_excludes_witness :
    ("vegetarian" ∈
      ({ interests := [], food_restrictions := ["vegetarian"], cultural_preferences := [],
         budget_range := "mid-range", travel_style := "solo", visited_places := [],
         favorite_places := [], preferred_neighborhoods := [] } :
        LocalGuideSystem.PersonalizationContext).food_restrictions) ∧
    LocalGuideSystem.is_restaurant_rec
      { Rec.empty with Name := some "Pork BBQ Alley", category := some "restaurant" } = true ∧
    strContains
      (LocalGuideSystem.rec_text_of
        { Rec.empty with Name := some "Pork BBQ Alley", category := some "restaurant" })
      "pork" = true ∧
    { Rec.empty with Name := some "Pork BBQ Alley", category := some "restaurant" } ∉
      LocalGuideSystem.apply_personalization_filtering
        [{ Rec.empty with Name := some "Pork BBQ Alley", category := some "restaurant" }]
        { interests := [], food_restrictions := ["vegetarian"], cultural_preferences := [],
          budget_range := "mid-range", travel_style := "solo", visited_places := [],
          favorite_places := [], preferred_neighborhoods := [] } := by
  refine ⟨by decide, by decide, by decide, ?_⟩
  exact food_restriction_filter_excludes _ _ _ (by decide) (by decide) (by decide)

/- ## C3 — the merge step performs no deduplication -/

/-- A record reused by the C3 input data. -/
def hongdae_hotspot : Rec := { Rec.empty with Name := some "Hongdae Hotspot" }

/-- An environment whose cultural and place adapters both return a record
with the same name. -/
def merge_env : LocalGuideSystem.Env :=
  { response_generator_available := false, rg_intent := Except.error "down",
    gemini_available := false, gemini_intent := Except.error "down",
    cultural_engine_available := true,
    cultural_result := Except.ok [hongdae_hotspot],
    search_service_available := true,
    search_result := Except.ok [hongdae_hotspot],
    neighborhood_result := Except.error "down",
    rg_response := Except.error "down", gemini_response := Except.error "down" }

/-- An intent with no neighborhood focus. -/
def merge_intent : LocalGuideSystem.Intent :=
  { entity := "hongdae", type' := "place", intent := "seeking recommendations",
    korean_related := true, cultural_themes := ["general_culture"],
    neighborhood_focus := none }

/-- C3 counterexample: the cultural adapter and the place adapter each
return a record named "Hongdae Hotspot"; both survive the merge step, so the
merged list is not name-duplicate-free — no dedup by name is performed. -/
theorem merge_dedup_counterexample :
    ¬ List.Pairwise
        (fun a b : Rec =>
          LocalGuideSystem.rec_display_name a ≠ LocalGuideSystem.rec_display_name b)
        (LocalGuideSystem.coordinate_recommendation_services merge_env merge_intent none) := by
  intro h
  rw [show LocalGuideSystem.coordinate_recommendation_services merge_env merge_intent none =
      [LocalGuideSystem.tag_cultural hongdae_hotspot,
       LocalGuideSystem.tag_place hongdae_hotspot] from rfl] at h
  exact (List.pairwise_cons.mp h).1 _ (List.mem_cons_self _ _) rfl

/-- C3 amended: the merge step concatenates the tagged cultural output, the
first 6 tagged place results, and the first 4 tagged neighborhood results,
with no deduplication of any kind (in particular, records sharing a name
all survive); the per-adapter caps are the only trimming. -/
theorem merge_concatenates_without_dedup (env : LocalGuideSystem.Env)
    (intent : LocalGuideSystem.Intent) (cl pl nl : List Rec)
    (hca : env.cultural_engine_available = true)
    (hc : env.cultural_result = Except.ok cl)
    (hsa : env.search_service_available = true)
    (hs : env.search_result = Except.ok pl)
    (hn : env.neighborhood_result = Except.ok nl)
    (hfoc : intent.neighborhood_focus.isSome = true) :
    LocalGuideSystem.coordinate_recommendation_services env intent none =
      cl.map LocalGuideSystem.tag_cultural ++ (pl.map LocalGuideSystem.tag_place).take 6 ++
        (nl.map LocalGuideSystem.tag_neighborhood).take 4 := by
  obtain ⟨f, hf⟩ := Option.isSome_iff_exists.mp hfoc
  unfold LocalGuideSystem.coordinate_recommendation_services
  rw [hca, hc, hsa, hs, hn, hf]
  simp

/-- The C3 witness environment: all three adapters return data. -/
def merge_env_full : LocalGuideSystem.Env :=
  { merge_env with neighborhood_result := Except.ok [hongdae_hotspot] }

/-- The C3 witness intent: a detected neighborhood focus. -/
def merge_intent_focus : LocalGuideSystem.Intent :=
  { merge_intent with neighborhood_focus := some "hongdae" }

/-- Witness for the amended C3 at a concrete environment where all three
adapters return the same one-record list. -/
theorem merge_concatenates_without_dedup_witness :
    (merge_env_full.cultural_engine_available = true ∧
     merge_env_full.cultural_result = Except.ok [hongdae_hotspot] ∧
     merge_env_full.search_service_available = true ∧
     merge_env_full.search_result = Except.ok [hongdae_hotspot] ∧
     merge_env_full.neighborhood_result = Except.ok [hongdae_hotspot] ∧
     merge_intent_focus.neighborhood_focus.isSome = true) ∧
    LocalGuideSystem.coordinate_recommendation_services merge_env_full merge_intent_focus none =
      [hongdae_hotspot].map LocalGuideSystem.tag_cultural ++
        ([hongdae_hotspot].map LocalGuideSystem.tag_place).take 6 ++
        ([hongdae_hotspot].map LocalGuideSystem.tag_neighborhood).take 4 :=
  ⟨⟨rfl, rfl, rfl, rfl, rfl, rfl⟩,
   merge_concatenates_without_dedup merge_env_full merge_intent_focus
     [hongdae_hotspot] [hongdae_hotspot] [hongdae_hotspot] rfl rfl rfl rfl rfl rfl⟩

/- ## C4 — fallback records carry hardcoded scores, not recomputed ones -/

/-- The lower-cased name extraction of the live scoring loop. -/
def CulturalDiscoveryEngine.item_name_lower (item : Rec) : String :=
  lowerStr (pyStr (item.Name <|> item.name))

/-- The lower-cased description extraction of the live scoring loop. -/
def CulturalDiscoveryEngine.item_desc_lower (item : Rec) : String :=
  lowerStr (pyStr (item.wTeaser <|> item.description))

/-- The lower-cased type extraction of the live scoring loop. -/
def CulturalDiscoveryEngine.item_type_lower (item : Rec) : String :=
  lowerStr (pyStr (item.Type' <|> item.type'))

/-- The relevance value the live loop stores: the computed score, floored at
0.2 for Korean-related queries. -/
def CulturalDiscoveryEngine.boosted_relevance (query_is_korean : Bool) (item : Rec) : ℚ :=
  let s := CulturalDiscoveryEngine.calculate_cultural_relevance_score
    (CulturalDiscoveryEngine.item_name_lower item)
    (CulturalDiscoveryEngine.item_desc_lower item)
    (CulturalDiscoveryEngine.item_type_lower item)
  if query_is_korean = true ∧ s < 0.2 then (0.2 : ℚ) else s

/-- Field-name normalisation does not touch the two score fields. -/
lemma normalize_fields_scores (i : Rec) :
    (CulturalDiscoveryEngine.normalize_fields i).cultural_relevance = i.cultural_relevance ∧
    (CulturalDiscoveryEngine.normalize_fields i).authenticity_score = i.authenticity_score := by
  simp only [CulturalDiscoveryEngine.normalize_fields]
  constructor <;> (repeat' split) <;> rfl

/-- The first record of the movie fallback set, exactly as
`_get_fallback_korean_experiences` returns it. -/
def parasite_fallback : Rec :=
  { Rec.empty with
      Name := some "Parasite", Type' := some "movie",
      wTeaser := some "Oscar-winning Korean thriller exploring class dynamics",
      cultural_context := some "Reflects modern Korean social issues and architecture",
      cultural_relevance := some 0.95, source := some "local_knowledge",
      fallback_reason := some "API unavailable" }

/-- C4 counterexample: the fallback path hands out records whose
`cultural_relevance` is the hardcoded table literal and whose
`authenticity_score` is absent entirely — the shared scoring functions are
not applied to them. -/
theorem fallback_scores_not_recomputed :
    ¬ (∀ r ∈ CulturalDiscoveryEngine.get_fallback_korean_experiences "temple stay" "movies" 8,
        r.authenticity_score = some (CulturalDiscoveryEngine.calculate_authenticity_score
          (CulturalDiscoveryEngine.item_name_lower r)
          (CulturalDiscoveryEngine.item_desc_lower r)) ∧
        r.cultural_relevance = some (CulturalDiscoveryEngine.calculate_cultural_relevance_score
          (CulturalDiscoveryEngine.item_name_lower r)
          (CulturalDiscoveryEngine.item_desc_lower r)
          (CulturalDiscoveryEngine.item_type_lower r))) := by
  intro h
  have hhead : (CulturalDiscoveryEngine.get_fallback_korean_experiences
      "temple stay" "movies" 8).head? = some parasite_fallback := rfl
  have hmem : parasite_fallback ∈
      CulturalDiscoveryEngine.get_fallback_korean_experiences "temple stay" "movies" 8 :=
    List.mem_of_mem_head? (Option.mem_def.mpr hhead)
  have hauth := (h parasite_fallback hmem).1
  rw [show parasite_fallback.authenticity_score = none from rfl] at hauth
  exact Option.noConfusion hauth

/-- C4 amended: records on the live path do get both scores recomputed by
the shared scoring functions before leaving the adapter, but the fallback
path returns the hardcoded knowledge-table entries unchanged (tagging only
`source` and `fallback_reason`): their `cultural_relevance` stays the
hardcoded literal and they carry no `authenticity_score` at all. -/
theorem adapter_scoring_contract :
    (∀ (query_is_korean : Bool) (item r : Rec),
        CulturalDiscoveryEngine.score_item query_is_korean item = some r →
        r.cultural_relevance =
          some (CulturalDiscoveryEngine.boosted_relevance query_is_korean item) ∧
        r.authenticity_score = some (CulturalDiscoveryEngine.calculate_authenticity_score
          (CulturalDiscoveryEngine.item_name_lower item)
          (CulturalDiscoveryEngine.item_desc_lower item))) ∧
    (∀ (query content_type : String) (limit : ℕ) (items : List Rec),
        CulturalDiscoveryEngine.local_cultural_knowledge.lookup content_type = some items →
        CulturalDiscoveryEngine.get_fallback_korean_experiences query content_type limit =
          (items.take limit).map CulturalDiscoveryEngine.tag_local_knowledge) := by
  constructor
  · intro query_is_korean item r h
    simp only [CulturalDiscoveryEngine.score_item] at h
    split at h
    · next hb =>
        split at h
        · injection h with h
          subst h
          refine ⟨?_, ?_⟩
          · rw [(normalize_fields_scores _).1]
            simp only [CulturalDiscoveryEngine.boosted_relevance]
            have hb' : query_is_korean = true ∧
                CulturalDiscoveryEngine.calculate_cultural_relevance_score
                  (CulturalDiscoveryEngine.item_name_lower item)
                  (CulturalDiscoveryEngine.item_desc_lower item)
                  (CulturalDiscoveryEngine.item_type_lower item) < 0.2 := hb
            rw [if_pos hb']
          · rw [(normalize_fields_scores _).2]
            rfl
        · exact Option.noConfusion h
    · next hb =>
        split at h
        · injection h with h
          subst h
          refine ⟨?_, ?_⟩
          · rw [(normalize_fields_scores _).1]
            simp only [CulturalDiscoveryEngine.boosted_relevance]
            have hb' : ¬ (query_is_korean = true ∧
                CulturalDiscoveryEngine.calculate_cultural_relevance_score
                  (CulturalDiscoveryEngine.item_name_lower item)
                  (CulturalDiscoveryEngine.item_desc_lower item)
                  (CulturalDiscoveryEngine.item_type_lower item) < 0.2) := hb
            rw [if_neg hb']
            rfl
          · rw [(normalize_fields_scores _).2]
            rfl
        · exact Option.noConfusion h
  · intro query content_type limit items hl
    simp only [CulturalDiscoveryEngine.get_fallback_korean_experiences, hl]

/-- The record `score_item` produces for an all-empty input record on a
Korean-related query. -/
def score_item_empty_result : Rec :=
  { Rec.empty with cultural_relevance := some 0.2, authenticity_score := some 0.5 }

/-- Witness for the amended C4: the live loop keeps an empty record on a
Korean query with the floored score, and the movie fallback is the table
prefix with only the tagging applied. -/
theorem adapter_scoring_contract_witness :
    (CulturalDiscoveryEngine.score_item true Rec.empty = some score_item_empty_result ∧
      score_item_empty_result.cultural_relevance =
        some (CulturalDiscoveryEngine.boosted_relevance true Rec.empty) ∧
      score_item_empty_result.authenticity_score =
        some (CulturalDiscoveryEngine.calculate_authenticity_score
          (CulturalDiscoveryEngine.item_name_lower Rec.empty)
          (CulturalDiscoveryEngine.item_desc_lower Rec.empty))) ∧
    (CulturalDiscoveryEngine.local_cultural_knowledge.lookup "movies" =
        some CulturalDiscoveryEngine.local_knowledge_movies ∧
      CulturalDiscoveryEngine.get_fallback_korean_experiences "seoul" "movies" 2 =
        (CulturalDiscoveryEngine.local_knowledge_movies.take 2).map
          CulturalDiscoveryEngine.tag_local_knowledge) := by
  have hscore : CulturalDiscoveryEngine.score_item true Rec.empty =
      some score_item_empty_result := by
    norm_num +decide [CulturalDiscoveryEngine.score_item,
      CulturalDiscoveryEngine.normalize_fields, Rec.empty, score_item_empty_result,
      CulturalDiscoveryEngine.calculate_cultural_relevance_score,
      CulturalDiscoveryEngine.calculate_authenticity_score,
      CulturalDiscoveryEngine.korean_cultural_keywords, CulturalDiscoveryEngine.keywordWeight,
      CulturalDiscoveryEngine.cultural_indicators, CulturalDiscoveryEngine.korean_elements,
      CulturalDiscoveryEngine.asian_indicators, CulturalDiscoveryEngine.authentic_elements,
      CulturalDiscoveryEngine.modern_elements]
  exact ⟨⟨hscore, adapter_scoring_contract.1 true Rec.empty score_item_empty_result hscore⟩,
    rfl, adapter_scoring_contract.2 "seoul" "movies" 2 _ rfl⟩

/- ## C6 — the success path carries no fallback_used key -/

/-- An environment in which every generative and data service is down. -/
def env_all_services_down : LocalGuideSystem.Env :=
  { response_generator_available := false, rg_intent := Except.error "down",
    gemini_available := false, gemini_intent := Except.error "down",
    cultural_engine_available := false, cultural_result := Except.error "down",
    search_service_available := false, search_result := Except.error "down",
    neighborhood_result := Except.error "down",
    rg_response := Except.error "down", gemini_response := Except.error "down" }

/-- C6 counterexample: it is not true that every `get_recommendation` result
carries a `fallback_used` key — on the success path (here: empty query, no
profile, no location, all services down but the body completing normally)
the result dict has no such key at all. -/
theorem fallback_used_key_missing_on_success :
    ¬ (∀ (env : LocalGuideSystem.Env) (q : String) (p : Option LocalGuideSystem.Profile)
        (loc : Option (ℚ × ℚ)),
        (LocalGuideSystem.get_recommendation env q p loc).fallback_used.isSome = true) := by
  intro h
  have hkey := h env_all_services_down "" none none
  rw [show (LocalGuideSystem.get_recommendation env_all_services_down "" none none).fallback_used
      = none from rfl] at hkey
  simp at hkey

/-- C6 amended: the success-path result dict omits the `fallback_used` key
entirely (while carrying the response, recommendations, cultural_context,
neighborhood_insights, authenticity_score and personalization_applied
entries); only the orchestrator-level fallback result carries
`fallback_used`, with value `True`. -/
theorem fallback_used_only_on_fallback_path (env : LocalGuideSystem.Env) (q : String)
    (p : Option LocalGuideSystem.Profile) (loc : Option (ℚ × ℚ)) :
    (LocalGuideSystem.get_recommendation env q p loc).fallback_used =
      (match LocalGuideSystem.get_recommendation_body env q p loc with
       | .ok _ => none
       | .error _ => some true) := by
  unfold LocalGuideSystem.get_recommendation
  cases hb : LocalGuideSystem.get_recommendation_body env q p loc with
  | ok r =>
      unfold LocalGuideSystem.get_recommendation_body at hb
      cases hc : LocalGuideSystem.get_personalization_context p with
      | ok ctx =>
          rw [hc] at hb
          injection hb with hb
          subst hb
          rfl
      | error e =>
          rw [hc] at hb
          exact Except.noConfusion hb
  | error e => rfl

/- ## C1 — get_recommendation never raises -/

/-- C1: at the exception level, `get_recommendation` always yields `.ok` —
for every environment (including all adapters and both generative services
always throwing), every query (including the empty string), any profile
(including `None` and profiles whose history entries make the body raise a
`KeyError`), and any location: the `try/except` wrapper catches every body
exception and the fallback handler itself is exception-free. -/
theorem get_recommendation_never_raises (env : LocalGuideSystem.Env) (q : String)
    (p : Option LocalGuideSystem.Profile) (loc : Option (ℚ × ℚ)) :
    LocalGuideSystem.get_recommendation_exc env q p loc =
      Except.ok (LocalGuideSystem.get_recommendation env q p loc) := by
  unfold LocalGuideSystem.get_recommendation_exc LocalGuideSystem.get_recommendation
  cases LocalGuideSystem.get_recommendation_body env q p loc <;> rfl

/- ## C9 — out-of-bounds coordinates warn but are still used as bias -/

/-- C9 counterexample: for the out-of-Korea location `(0, 0)` the built
search params do log the warning, but the search does not proceed "without
the coordinates or with the default city center" — the out-of-bounds pair
itself is installed as `aroundLatLng`. -/
theorem out_of_bounds_location_still_biases_search :
    (SearchService.search_places_params "food" (some (0, 0)) none 10000).warnedOutOfBounds =
      true ∧
    (SearchService.search_places_params "food" (some (0, 0)) none 10000).aroundLatLng =
      some (0, 0) ∧
    ¬ ((SearchService.search_places_params "food" (some (0, 0)) none 10000).aroundLatLng =
        none ∨
       (SearchService.search_places_params "food" (some (0, 0)) none 10000).aroundLatLng =
        some (37.5665, 126.9780)) := by
  refine ⟨by decide, rfl, ?_⟩
  intro h
  rw [show (SearchService.search_places_params "food" (some (0, 0)) none 10000).aroundLatLng =
      some ((0 : ℚ), (0 : ℚ)) from rfl] at h
  rcases h with h | h
  · exact Option.noConfusion h
  · have : (0 : ℚ) = 37.5665 := congrArg Prod.fst (Option.some.inj h)
    norm_num at this

/-- C9 amended: out-of-bounds coordinates are logged as a warning and the
call does not fail — but the search still proceeds *with* those very
coordinates as its location bias (not without them, and not with the
default city center). -/
theorem out_of_bounds_warns_but_proceeds (query : String) (lat lng : ℚ)
    (place_type : Option String) (radius : ℕ)
    (h : SearchService.in_korea_bounds lat lng = false) :
    (SearchService.search_places_params query (some (lat, lng)) place_type radius).warnedOutOfBounds =
      true ∧
    (SearchService.search_places_params query (some (lat, lng)) place_type radius).aroundLatLng =
      some (lat, lng) ∧
    ∀ env : SearchService.SearchEnv,
      SearchService.search_places_exc env query (some (lat, lng)) place_type radius =
        Except.ok (SearchService.search_places env query (some (lat, lng)) place_type radius) := by
  refine ⟨?_, ?_, fun _ => rfl⟩ <;>
    cases place_type <;> simp [SearchService.search_places_params, h]

/-- Witness for the amended C9 at the null-island location `(0, 0)`. -/
theorem out_of_bounds_warns_but_proceeds_witness :
    (SearchService.in_korea_bounds 0 0 = false) ∧
    ((SearchService.search_places_params "food" (some (0, 0)) none 10000).warnedOutOfBounds =
      true ∧
    (SearchService.search_places_params "food" (some (0, 0)) none 10000).aroundLatLng =
      some (0, 0) ∧
    ∀ env : SearchService.SearchEnv,
      SearchService.search_places_exc env "food" (some (0, 0)) none 10000 =
        Except.ok (SearchService.search_places env "food" (some (0, 0)) none 10000)) :=
  ⟨by decide, out_of_bounds_warns_but_proceeds "food" 0 0 none 10000 (by decide)⟩
